import Mathlib

/-!
Verification of the django-matt framework's route-registration/dispatch
pipeline, schema-generation bridge, error formatting and caching layer,
via a shallow embedding of `django_matt/core/router.py`,
`django_matt/core/controller.py`, `django_matt/core/schema.py`,
`django_matt/core/errors.py` and `django_matt/utils/performance.py`.

JSON values, HTTP requests/responses and Python dictionaries are modelled
explicitly; Python's `json.loads` is modelled by tagging a request body with
its parse result (the framework never inspects JSON text itself, only the
success or failure of parsing).  Pydantic model classes are modelled as
validation functions.  Machine-level aspects (hashing internals of `md5`)
are passed as explicit function parameters.
-/

namespace DjangoMatt

/-- A JSON value, as produced by `json.loads` and consumed by `JsonResponse`.
Objects are association lists of string keys. -/
inductive JsonVal where
  | null : JsonVal
  | bool : Bool → JsonVal
  | num : Int → JsonVal
  | str : String → JsonVal
  | arr : List JsonVal → JsonVal
  | obj : List (String × JsonVal) → JsonVal

/-- A Django `HttpResponse`: a status code and (for the JSON responses the
framework builds) a JSON content value. -/
structure HttpResponse where
  status : Nat
  content : JsonVal

/-- `django.http.JsonResponse(data, status=...)`. -/
def JsonResponse (data : JsonVal) (status : Nat) : HttpResponse :=
  ⟨status, data⟩

/-- The raw body of a request, tagged with whether `json.loads` succeeds on
it.  `wellFormed v` is a body whose JSON parse yields `v`; `malformed` is a
non-empty body on which `json.loads` raises `JSONDecodeError`. -/
inductive BodyContent where
  | wellFormed : JsonVal → BodyContent
  | malformed : BodyContent

/-- `json.loads` on a non-empty body: the parsed value, or `none` when a
`JSONDecodeError` is raised. -/
def jsonLoads : BodyContent → Option JsonVal
  | .wellFormed v => some v
  | .malformed => none

/-- A Django `HttpRequest`, restricted to the attributes the framework
reads in its view wrappers: `request.body` (`none` models an empty, falsy
body) and `request.content_type`. -/
structure Request where
  contentType : String
  body : Option BodyContent

/-- A pydantic model class, as used for `response_model`: validating a dict
of fields either fails with a `ValidationError` (carrying `e.errors()`) or
succeeds, and `model_dump()` of the resulting instance is again a dict. -/
structure ResponseModel where
  validate : List (String × JsonVal) → Except JsonVal (List (String × JsonVal))

/-- The value returned by an endpoint: either a Django `HttpResponse`
(`isinstance(result, HttpResponse)`) or any other Python value, rendered
as JSON.  A returned dict is `val (.obj fields)`. -/
inductive EndpointResult where
  | http : HttpResponse → EndpointResult
  | val : JsonVal → EndpointResult

/-- Python dict assignment `kwargs[k] = v`: replace the binding for `k`
when present, otherwise add it. -/
def dictSet {α : Type} (l : List (String × α)) (k : String) (v : α) :
    List (String × α) :=
  if l.any (fun p => p.1 == k) then
    l.map (fun p => if p.1 == k then (k, v) else p)
  else
    l ++ [(k, v)]

/-- An endpoint function registered on a router: `sync` is a plain function,
`coroutine` one declared `async def` (detected by
`inspect.iscoroutinefunction`); awaiting the coroutine yields its value. -/
inductive Endpoint where
  | sync : (Request → List (String × JsonVal) → EndpointResult) → Endpoint
  | coroutine : (Request → List (String × JsonVal) → EndpointResult) → Endpoint

/-- The body-parsing prologue shared by every generated view
(`router.py`, `view_func`): when the request has a non-empty body and
content type `application/json`, parse it and bind the result to the
`body` keyword argument; on a `JSONDecodeError` return the 400 response. -/
def viewBodyStep (request : Request) (kwargs : List (String × JsonVal)) :
    Except HttpResponse (List (String × JsonVal)) :=
  match request.body with
  | some bc =>
    if request.contentType == "application/json" then
      match jsonLoads bc with
      | some bodyData => .ok (dictSet kwargs "body" bodyData)
      | none => .error (JsonResponse (.obj [("detail", .str "Invalid JSON")]) 400)
    else .ok kwargs
  | none => .ok kwargs

/-- The response-serialization epilogue of every generated view
(`router.py`, `view_func`): when a `response_model` is declared and the
result is a dict, validate it (failure yields the 500 response); then pass
`HttpResponse` results through unchanged and wrap anything else in
`JsonResponse(result, status=status_code, safe=False)`. -/
def viewSerializeStep (response_model : Option ResponseModel)
    (status_code : Nat) (result : EndpointResult) : HttpResponse :=
  match response_model, result with
  | some m, .val (.obj d) =>
    match m.validate d with
    | .ok dumped => JsonResponse (.obj dumped) status_code
    | .error errs =>
      JsonResponse
        (.obj [("detail", .str "Response validation error"), ("errors", errs)]) 500
  | _, .http r => r
  | _, .val v => JsonResponse v status_code

/-- Calling the endpoint in a generated view:
`if inspect.iscoroutinefunction(endpoint): result = await endpoint(...)
else: result = endpoint(...)`. -/
def Endpoint.call (e : Endpoint) (request : Request)
    (kwargs : List (String × JsonVal)) : EndpointResult :=
  match e with
  | .coroutine f => f request kwargs
  | .sync f => f request kwargs

/-- The view function produced by `create_view_func(endpoint,
response_model, status_code)` in `APIRouter.get_urls`: parse the body,
call (or await) the endpoint, serialize the result. -/
def view_func (endpoint : Endpoint) (response_model : Option ResponseModel)
    (status_code : Nat) (request : Request)
    (kwargs : List (String × JsonVal)) : HttpResponse :=
  match viewBodyStep request kwargs with
  | .error resp => resp
  | .ok kwargs1 =>
    viewSerializeStep response_model status_code (endpoint.call request kwargs1)

/-- A route record as stored by `APIRouter.add_route` (a dict in the
source).  `name` is already resolved: `add_route` stores
`name or endpoint.__name__`. -/
structure Route where
  path : String
  endpoint : Endpoint
  methods : List String
  name : String
  response_model : Option ResponseModel
  status_code : Nat
  tags : List String

/-- Python `x or y` for an optional string argument: `None` and the empty
string are falsy. -/
def pyOrStr (x : Option String) (y : String) : String :=
  match x with
  | some s => if s == "" then y else s
  | none => y

/-- Python `x or y` for an optional list argument (`tags or []`). -/
def pyOrList (x : Option (List String)) : List String :=
  match x with
  | some l => l
  | none => []

/-- An `APIRouter`: a URL prefix, default tags, registered routes and
registered controller classes (the latter modelled only by index here;
controllers are treated separately below). -/
structure APIRouter where
  prefixStr : String
  tags : List String
  routes : List Route
  controllers : List Nat

/-- `APIRouter.__init__(prefix, tags)`. -/
def APIRouter.init (prefixArg : String) (tagsArg : Option (List String)) : APIRouter :=
  ⟨prefixArg, pyOrList tagsArg, [], []⟩

/-- `APIRouter.add_route`: append a route dict; the stored name is
`name or endpoint.__name__`. -/
def APIRouter.add_route (r : APIRouter) (path_pattern : String)
    (endpoint : Endpoint) (endpointName : String) (methods : List String)
    (name : Option String) (response_model : Option ResponseModel)
    (status_code : Nat) (tags : Option (List String)) : APIRouter :=
  { r with
    routes := r.routes ++
      [{ path := path_pattern
         endpoint := endpoint
         methods := methods
         name := pyOrStr name endpointName
         response_model := response_model
         status_code := status_code
         tags := pyOrList tags }] }

/-- `APIRouter.get`: keyword arguments are `Option`s, `none` meaning the
argument was omitted at the call site; the signature default for
`status_code` is 200. -/
def APIRouter.get (r : APIRouter) (path_pattern : String)
    (response_model : Option ResponseModel) (status_code : Option Nat)
    (name : Option String) (tags : Option (List String))
    (endpoint : Endpoint) (endpointName : String) : APIRouter :=
  r.add_route path_pattern endpoint endpointName ["GET"] name response_model
    (status_code.getD 200) tags

/-- `APIRouter.post`: signature default for `status_code` is 201. -/
def APIRouter.post (r : APIRouter) (path_pattern : String)
    (response_model : Option ResponseModel) (status_code : Option Nat)
    (name : Option String) (tags : Option (List String))
    (endpoint : Endpoint) (endpointName : String) : APIRouter :=
  r.add_route path_pattern endpoint endpointName ["POST"] name response_model
    (status_code.getD 201) tags

/-- `APIRouter.put`: signature default for `status_code` is 200. -/
def APIRouter.put (r : APIRouter) (path_pattern : String)
    (response_model : Option ResponseModel) (status_code : Option Nat)
    (name : Option String) (tags : Option (List String))
    (endpoint : Endpoint) (endpointName : String) : APIRouter :=
  r.add_route path_pattern endpoint endpointName ["PUT"] name response_model
    (status_code.getD 200) tags

/-- `APIRouter.patch`: signature default for `status_code` is 200. -/
def APIRouter.patch (r : APIRouter) (path_pattern : String)
    (response_model : Option ResponseModel) (status_code : Option Nat)
    (name : Option String) (tags : Option (List String))
    (endpoint : Endpoint) (endpointName : String) : APIRouter :=
  r.add_route path_pattern endpoint endpointName ["PATCH"] name response_model
    (status_code.getD 200) tags

/-- `APIRouter.delete`: signature default for `status_code` is 204. -/
def APIRouter.delete (r : APIRouter) (path_pattern : String)
    (response_model : Option ResponseModel) (status_code : Option Nat)
    (name : Option String) (tags : Option (List String))
    (endpoint : Endpoint) (endpointName : String) : APIRouter :=
  r.add_route path_pattern endpoint endpointName ["DELETE"] name response_model
    (status_code.getD 204) tags

/-- The copy made of one included route by `APIRouter.include_router`:
`route.copy()` with `path` and `tags` overwritten. -/
def includedRouteCopy (selfPrefix : String) (selfTags : List String)
    (prefixArg : String) (route : Route) : Route :=
  { route with
    path := selfPrefix ++ prefixArg ++ route.path
    tags := route.tags ++ selfTags }

/-- `APIRouter.include_router(router, prefix)`: append a prefixed, retagged
copy of each of the other router's routes, and append its controllers.
The other router is read but never written. -/
def APIRouter.include_router (r : APIRouter) (other : APIRouter)
    (prefixArg : String) : APIRouter :=
  { r with
    routes := r.routes ++
      other.routes.map (includedRouteCopy r.prefixStr r.tags prefixArg)
    controllers := r.controllers ++ other.controllers }

/-! ## Controllers (`django_matt/core/controller.py`)

A controller instance is modelled as the list of its public attributes:
the entries of `dir(self)` whose names do not start with an underscore,
in `dir`'s sorted order, paired with the value `getattr` returns for them.

The two wrapping loops in `Controller.__init__` (`_setup_dependencies` and
`_setup_error_handling`) define their wrapper functions inside a `for`
loop over these names; every wrapper closes over the loop variables
`method` (and `hints`) themselves, not over their values at definition time, so
after the loop finishes all wrappers of one loop share a single binding
holding the value assigned on the loop's final iteration.  That shared
final value is modelled here as an explicit cell per loop.  The
`functools.wraps` decoration, by contrast, is applied on each iteration
with the current `method`, so the copied `_route_info` metadata on each
wrapper is the metadata of the method it textually replaced. -/

/-- The `_route_info` dict set on a controller method by the route
decorators (`router.py`, module-level `get`/`post`/`put`/`patch`/`delete`).
Every decorator stores all keys, in particular `name` with the decorator's
`name` argument, which defaults to `None` — the key is always present. -/
structure RouteInfo where
  path : String
  methods : List String
  response_model : Option ResponseModel
  status_code : Nat
  name : Option String
  tags : List String

/-- `route_info.get("name", method_name)` in `APIRouter.get_urls`: the
decorator-produced dicts always contain the `name` key, so the stored
value (possibly `None`) is returned and the `method_name` default is never
used. -/
def routeInfoGetName (info : RouteInfo) (_methodName : String) : Option String :=
  info.name

/-- A public attribute of a controller instance.  `plain b` is a non-method
attribute (`b` records whether it is callable); `method id info` is a bound
method, identified by `id`, carrying its `_route_info` when decorated;
`depWrapper info` and `errWrapper info` are the async wrappers installed by
`_setup_dependencies` and `_setup_error_handling`, carrying the
`_route_info` copied onto them by `functools.wraps`. -/
inductive CAttr where
  | plain : Bool → CAttr
  | method : Nat → Option RouteInfo → CAttr
  | depWrapper : Option RouteInfo → CAttr
  | errWrapper : Option RouteInfo → CAttr

/-- `callable(attr)`. -/
def CAttr.callable : CAttr → Bool
  | .plain b => b
  | .method _ _ => true
  | .depWrapper _ => true
  | .errWrapper _ => true

/-- The `_route_info` attribute of `attr`, when present. -/
def CAttr.routeInfo : CAttr → Option RouteInfo
  | .plain _ => none
  | .method _ info => info
  | .depWrapper info => info
  | .errWrapper info => info

/-- The test both setup loops and `get_urls` perform on an attribute:
callable and carrying `_route_info`. -/
def CAttr.isRouteMethod (a : CAttr) : Bool :=
  a.callable && a.routeInfo.isSome

/-- A controller instance: its `prefix` attribute and its public
attributes in `dir` order. -/
structure Controller where
  prefixStr : String
  attrs : List (String × CAttr)

/-- The value held by the loop variable `method` after a wrapping loop over
`attrs` finishes: the loop rebinds `method := getattr(self, name)` for
every public name before any of its `continue` checks, so the final value
is the last public attribute. -/
def loopMethodCell (attrs : List (String × CAttr)) : Option CAttr :=
  (attrs.map Prod.snd).getLast?

/-- `Controller._setup_dependencies`: each public callable attribute with
`_route_info` is replaced by a dependency-injection wrapper; `wraps` copies
that attribute's `_route_info` onto the wrapper.  Reads happen before the
same name's write, so the loop sees the original attributes throughout. -/
def setup_dependencies (attrs : List (String × CAttr)) : List (String × CAttr) :=
  attrs.map fun p => if p.2.isRouteMethod then (p.1, .depWrapper p.2.routeInfo) else p

/-- `Controller._setup_error_handling`: runs after `_setup_dependencies`
and wraps each route attribute (now a dependency wrapper) in an
error-handling wrapper. -/
def setup_error_handling (attrs : List (String × CAttr)) : List (String × CAttr) :=
  attrs.map fun p => if p.2.isRouteMethod then (p.1, .errWrapper p.2.routeInfo) else p

/-- The outcome of invoking a controller attribute once the enclosing
view's body guard has passed: the identity of the underlying decorated
method finally executed, a `TypeError` because the shared cell holds a
non-callable value, or a call of a plain callable attribute. -/
inductive Invoked where
  | method : Nat → Invoked
  | notCallableError : Invoked
  | plainCall : Invoked
deriving DecidableEq

/-- Calling an original (pre-wrapping) attribute. -/
def callOriginal : CAttr → Invoked
  | .method i _ => .method i
  | .plain true => .plainCall
  | .plain false => .notCallableError
  | .depWrapper _ => .plainCall
  | .errWrapper _ => .plainCall

/-- Calling an attribute as it exists after `_setup_dependencies`: a
dependency wrapper calls whatever `cell1` (the first loop's shared
`method` binding) finally holds. -/
def callAfterDep (cell1 : Option CAttr) : CAttr → Invoked
  | .depWrapper _ =>
    match cell1 with
    | some a => callOriginal a
    | none => .notCallableError
  | a => callOriginal a

/-- Calling an attribute as it exists after both setup loops: an
error-handling wrapper calls whatever `cell2` (the second loop's shared
`method` binding) finally holds. -/
def callAfterErr (cell1 cell2 : Option CAttr) : CAttr → Invoked
  | .errWrapper _ =>
    match cell2 with
    | some a => callAfterDep cell1 a
    | none => .notCallableError
  | a => callAfterDep cell1 a

/-- One URL pattern produced by the controller loop of
`APIRouter.get_urls`: its path, its (possibly absent) name, and the
underlying method its view ends up invoking. -/
structure CtrlUrlPattern where
  path : String
  urlName : Option String
  target : Invoked
deriving DecidableEq

/-- The controller part of `APIRouter.get_urls`: instantiate the
controller (running both wrapping loops of `Controller.__init__`), then
generate one URL pattern for every public callable attribute carrying
`_route_info`, with path `router.prefix + controller.prefix + route path`
and name `route_info.get("name", method_name)`.  The pattern's `target`
is what its generated view invokes: the attribute found by `getattr`,
evaluated under the two loops' shared cells. -/
def controller_get_urls (routerPrefix : String) (c : Controller) :
    List CtrlUrlPattern :=
  let attrs1 := setup_dependencies c.attrs
  let attrs2 := setup_error_handling attrs1
  let cell1 := loopMethodCell c.attrs
  let cell2 := loopMethodCell attrs1
  attrs2.filterMap fun p =>
    if p.2.callable then
      match p.2.routeInfo with
      | some info =>
        some { path := routerPrefix ++ c.prefixStr ++ info.path
               urlName := routeInfoGetName info p.1
               target := callAfterErr cell1 cell2 p.2 }
      | none => none
    else none

/-- A type hint on a controller method, as classified by the
dependency-injection wrapper: the `request` parameter, a pydantic model
class (`issubclass(param_type, BaseModel)`), or anything else. -/
inductive Hint where
  | request : Hint
  | pydantic : (JsonVal → Except JsonVal JsonVal) → Hint
  | other : Hint

/-- A keyword-argument value assembled by the dependency wrapper: the
request object or an ordinary value (for a validated model instance, the
instance's field data). -/
inductive CtrlKw where
  | request : CtrlKw
  | val : JsonVal → CtrlKw

/-- The dependency-injection loop of `_setup_dependencies.wrapper`: walk
the method's type hints, skip `return`, bind `request`, and for each
pydantic-model hint build the model from the body data, answering 422 on a
`ValidationError`. -/
def injectHints (bodyData : JsonVal) :
    List (String × Hint) → List (String × CtrlKw) →
    Except HttpResponse (List (String × CtrlKw))
  | [], kw => .ok kw
  | (p, h) :: rest, kw =>
    if p == "return" then injectHints bodyData rest kw
    else
      match h with
      | .request => injectHints bodyData rest (dictSet kw p .request)
      | .pydantic validate =>
        match validate bodyData with
        | .ok inst => injectHints bodyData rest (dictSet kw p (.val inst))
        | .error errs =>
          .error (JsonResponse
            (.obj [("detail", .str "Validation error"), ("errors", errs)]) 422)
      | .other => injectHints bodyData rest kw

/-- The body of the wrapper installed by `Controller._setup_dependencies`:
parse a JSON body into `body_data` (defaulting to the empty dict, and
answering 400 on a `JSONDecodeError` without calling anything), inject
dependencies from the type hints, then call the wrapped method with the
assembled keyword arguments and return its result. -/
def runDepWrapper {α : Type} (hints : List (String × Hint))
    (method : List (String × CtrlKw) → α) (request : Request)
    (kwargs0 : List (String × CtrlKw)) : Except HttpResponse α :=
  let bodyStep : Except HttpResponse JsonVal :=
    match request.body with
    | some bc =>
      if request.contentType == "application/json" then
        match jsonLoads bc with
        | some v => .ok v
        | none => .error (JsonResponse (.obj [("detail", .str "Invalid JSON")]) 400)
      else .ok (.obj [])
    | none => .ok (.obj [])
  match bodyStep with
  | .error resp => .error resp
  | .ok bodyData =>
    match injectHints bodyData hints kwargs0 with
    | .error resp => .error resp
    | .ok kw => .ok (method kw)

/-! ## Schema bridge (`django_matt/core/schema.py`)

Django model field classes are modelled as an inductive type together
with their inheritance chains (as in Django's `django.db.models.fields`),
so that `isinstance` tests and the ordered lookup through
`FIELD_TYPE_MAP` can be reproduced exactly. -/

/-- The Django model field classes mentioned by `schema.py`, plus a stand-in
for any field class unrelated to them. -/
inductive FieldCls where
  | AutoField | BigAutoField | BigIntegerField | BooleanField | CharField
  | DateField | DateTimeField | DecimalField | EmailField | FloatField
  | IntegerField | PositiveIntegerField | PositiveSmallIntegerField
  | SlugField | SmallIntegerField | TextField | TimeField | URLField
  | UUIDField | JSONField
  | ForeignKey | OneToOneField | ManyToManyField
  | UnknownField
deriving DecidableEq

/-- The proper ancestors of each field class within the modelled set,
following Django's class hierarchy (`AutoField` extends `IntegerField`;
`DateTimeField` extends `DateField`; `EmailField`, `SlugField` and
`URLField` extend `CharField`; `OneToOneField` extends `ForeignKey`;
the integer variants extend `IntegerField`). -/
def FieldCls.ancestors : FieldCls → List FieldCls
  | .AutoField => [.IntegerField]
  | .BigAutoField => [.AutoField, .IntegerField]
  | .BigIntegerField => [.IntegerField]
  | .DateTimeField => [.DateField]
  | .EmailField => [.CharField]
  | .PositiveIntegerField => [.IntegerField]
  | .PositiveSmallIntegerField => [.SmallIntegerField, .IntegerField]
  | .SlugField => [.CharField]
  | .SmallIntegerField => [.IntegerField]
  | .URLField => [.CharField]
  | .OneToOneField => [.ForeignKey]
  | _ => []

/-- `isinstance(field, d)` for a field whose class is `c`. -/
def FieldCls.isInstanceOf (c d : FieldCls) : Bool :=
  c == d || c.ancestors.contains d

/-- The Python types `schema.py` works with.  `_get_python_type_for_field`
never returns an `optional`; the `Optional` wrapping happens in
`create_schema_from_model` for nullable fields. -/
inductive PyType where
  | int | bool | str | float | date | datetime | time | uuid
  | dictStrAny | listInt | any
  | optional : PyType → PyType
deriving DecidableEq

/-- `FIELD_TYPE_MAP`, in its dict insertion order. -/
def FIELD_TYPE_MAP : List (FieldCls × PyType) :=
  [(.AutoField, .int), (.BigAutoField, .int), (.BigIntegerField, .int),
   (.BooleanField, .bool), (.CharField, .str), (.DateField, .date),
   (.DateTimeField, .datetime), (.DecimalField, .float), (.EmailField, .str),
   (.FloatField, .float), (.IntegerField, .int), (.PositiveIntegerField, .int),
   (.PositiveSmallIntegerField, .int), (.SlugField, .str),
   (.SmallIntegerField, .int), (.TextField, .str), (.TimeField, .time),
   (.URLField, .str), (.UUIDField, .uuid), (.JSONField, .dictStrAny)]

/-- `_get_python_type_for_field`: relationship fields first, then the
first `isinstance` match walking `FIELD_TYPE_MAP` in order, else `Any`. -/
def get_python_type_for_field (cls : FieldCls) : PyType :=
  if cls.isInstanceOf .ForeignKey || cls.isInstanceOf .OneToOneField then .int
  else if cls.isInstanceOf .ManyToManyField then .listInt
  else
    match FIELD_TYPE_MAP.find? (fun e => cls.isInstanceOf e.1) with
    | some e => e.2
    | none => .any

/-- The field object returned by `_get_django_field_for_type`: its class
and the `null` flag passed to its constructor (the `max_length=255` of the
`CharField` case is not observed by any property here). -/
structure DjangoFieldSpec where
  cls : FieldCls
  null : Bool
deriving DecidableEq

/-- `_get_django_field_for_type`: unwrap `Optional`, map `list` types to a
plain `JSONField()`, then match the concrete Python types in the source's
order, defaulting to `TextField(null=True)`. -/
def get_django_field_for_type : PyType → DjangoFieldSpec
  | .optional t => get_django_field_for_type t
  | .listInt => ⟨.JSONField, false⟩
  | .int => ⟨.IntegerField, true⟩
  | .str => ⟨.CharField, true⟩
  | .bool => ⟨.BooleanField, true⟩
  | .float => ⟨.FloatField, true⟩
  | .datetime => ⟨.DateTimeField, true⟩
  | .date => ⟨.DateField, true⟩
  | .time => ⟨.TimeField, true⟩
  | .uuid => ⟨.UUIDField, true⟩
  | .dictStrAny => ⟨.JSONField, true⟩
  | .any => ⟨.TextField, true⟩

/-- A Django model field as read by `create_schema_from_model`: its name,
class, `null` flag, and whether the model declares a default for it
(`field.default != models.NOT_PROVIDED`).  The `verbose_name`/`help_text`
metadata only feeds the generated `Field` title/description and is not
modelled. -/
structure DjangoField where
  name : String
  cls : FieldCls
  null : Bool
  hasDefault : Bool
deriving DecidableEq

/-- A Django model's `_meta.fields`: its concrete forward fields, in
declaration order (`ManyToManyField`s are not part of `_meta.fields`). -/
structure DjangoModelMeta where
  fields : List DjangoField

/-- A field of the generated pydantic schema: its annotation and whether
it is required (`default=...` when the model declares no default). -/
structure SchemaField where
  type : PyType
  required : Bool
deriving DecidableEq

/-- The include/exclude filter of `create_schema_from_model`: a field is
skipped when `include` is given and does not list it, or when `exclude`
is given and lists it. -/
def schemaFieldKept (includeArg excludeArg : Option (List String))
    (fieldName : String) : Bool :=
  !(match includeArg with
    | some inc => !inc.contains fieldName
    | none => false) &&
  !(match excludeArg with
    | some exc => exc.contains fieldName
    | none => false)

/-- `create_schema_from_model`: walk `model._meta.fields`, apply the
include/exclude filter, compute each kept field's Python type (wrapped in
`Optional` when the field is nullable) and its requiredness. -/
def create_schema_from_model (m : DjangoModelMeta)
    (includeArg excludeArg : Option (List String)) :
    List (String × SchemaField) :=
  m.fields.filterMap fun f =>
    if schemaFieldKept includeArg excludeArg f.name then
      some (f.name,
        { type :=
            if f.null then .optional (get_python_type_for_field f.cls)
            else get_python_type_for_field f.cls
          required := !f.hasDefault })
    else none

/-! ## Error formatting (`django_matt/core/errors.py` and
`APIController.handle_exception` in `controller.py`)

An exception is modelled by the class facts the framework inspects:
which of the specially-handled classes it is an instance of, its class
name (`handle_exception` compares `__class__.__name__` textually), its
`status_code`/`code` attributes when present, its message, and the
payloads (`errors()`, `context`) reproduced into response bodies.  None
of the specially-handled classes is a subclass of another, so a single
tag suffices for the `isinstance` chains. -/

/-- The exception classes distinguished by `isinstance` checks.
`apiError` covers `APIError` and its subclasses (which always carry a
`status_code` attribute); `otherExc` is any other class, including the
ORM `DoesNotExist` classes, which are recognised by name only. -/
inductive ExcClass where
  | apiError | validationError | permissionError | fileNotFoundError
  | jsonDecodeError | keyError | attributeError | notImplementedError
  | otherExc
deriving DecidableEq

/-- An exception as observed by the error-handling code. -/
structure Exc where
  cls : ExcClass
  clsName : String
  message : String
  statusAttr : Option Nat
  codeAttr : Option String
  errors : JsonVal
  context : List (String × JsonVal)

/-- `ErrorHandler._get_status_code`: the exception's own `status_code`
attribute when present, else the `isinstance` chain, else 500. -/
def get_status_code (e : Exc) : Nat :=
  match e.statusAttr with
  | some s => s
  | none =>
    match e.cls with
    | .validationError => 422
    | .permissionError => 403
    | .fileNotFoundError => 404
    | .jsonDecodeError => 400
    | .keyError => 400
    | .attributeError => 400
    | .notImplementedError => 501
    | _ => 500

/-- `ErrorHandler._get_error_code`: the exception's own `code` attribute
when present, else the lower-cased class name. -/
def get_error_code (e : Exc) : String :=
  match e.codeAttr with
  | some c => c
  | none => e.clsName.toLower

/-- An `ErrorDetail`, restricted to the fields `capture_exception` fills
from the exception itself (timestamp, traceback location and code
snippets depend on the runtime stack and wall clock and are outside this
model). -/
structure ErrorDetail where
  message : String
  error_type : String
  code : String
  status_code : Nat

/-- `ErrorHandler.capture_exception`: build the `ErrorDetail` carrying the
exception's message, class name, code and mapped status. -/
def capture_exception (e : Exc) : ErrorDetail :=
  { message := e.message
    error_type := e.clsName
    code := get_error_code e
    status_code := get_status_code e }

/-- `ErrorDetail.to_response`: serialize `to_dict`'s core fields into a
`JsonResponse` whose status is the detail's own `status_code`. -/
def ErrorDetail.to_response (d : ErrorDetail) : HttpResponse :=
  JsonResponse
    (.obj [("message", .str d.message), ("error_type", .str d.error_type),
           ("code", .str d.code), ("status_code", .num d.status_code)])
    d.status_code

/-- `exc.__class__.__module__.split(".")[-2]`, the model name extracted
for `DoesNotExist` responses. -/
def moduleSecondLast (parts : List String) : String :=
  (parts.reverse.drop 1).headD ""

/-- `APIController.handle_exception`: `APIError`s answer with their own
status code, pydantic `ValidationError`s with 422, exceptions whose class
is named `DoesNotExist` with 404, and anything else goes through
`capture_exception` / `to_response`. -/
def handle_exception (e : Exc) (modParts : List String) : HttpResponse :=
  if e.cls == .apiError then
    JsonResponse
      (.obj [("detail", .str e.message),
             ("code", .str (e.codeAttr.getD "error")),
             ("context", .obj e.context)])
      (e.statusAttr.getD 500)
  else if e.cls == .validationError then
    JsonResponse
      (.obj [("detail", .str "Validation error"), ("errors", e.errors)]) 422
  else if e.clsName == "DoesNotExist" then
    JsonResponse
      (.obj [("detail", .str (moduleSecondLast modParts ++ " not found")),
             ("code", .str "not_found")])
      404
  else
    (capture_exception e).to_response

/-! ## Caching (`django_matt/utils/performance.py`, `CacheManager`)

Cache keys are built from `str()` renderings of the call arguments.  The
embedded fragment takes positional and keyword argument values to be
Python strings over the identifier character set (letters, digits,
underscore) — the fragment on which Python's `repr` is exactly
quote–text–quote — and keyword names likewise (Python keyword-argument
names are identifiers).  `hashlib.md5(...).hexdigest()` is an external
primitive and is passed in as an explicit function. -/

/-- A character allowed in the embedded string fragment: ASCII
alphanumeric or underscore.  These exclude the quote, colon, comma,
space, parenthesis and bracket characters that delimit `str()`
renderings. -/
def isIdentChar (c : Char) : Bool :=
  (c.isAlphanum && c.toNat < 128) || c == '_'

/-- The single-quote character used by Python `repr` on strings. -/
def squote : Char := Char.ofNat 39

/-- Python `repr` of a string over the identifier fragment:
quote, text, quote. -/
def pyReprStr (s : String) : String :=
  squote.toString ++ s ++ squote.toString

/-- `", ".join(...)`: the comma-space-separated concatenation used inside
Python's tuple and list renderings. -/
def commaSep : List String → String
  | [] => ""
  | [x] => x
  | x :: xs => x ++ ", " ++ commaSep xs

/-- Python `str` of a non-empty tuple of such strings: `('a',)` for a
singleton, `('a', 'b', ...)` otherwise. -/
def pyStrTuple : List String → String
  | [] => "()"
  | [x] => "(" ++ pyReprStr x ++ ",)"
  | xs => "(" ++ commaSep (xs.map pyReprStr) ++ ")"

/-- Python `repr` of one `(name, value)` item tuple. -/
def pyReprPair (p : String × String) : String :=
  "(" ++ pyReprStr p.1 ++ ", " ++ pyReprStr p.2 ++ ")"

/-- Python `str` of a list of item tuples: `[(...), (...)]`. -/
def pyStrItems (l : List (String × String)) : String :=
  "[" ++ commaSep (l.map pyReprPair) ++ "]"

/-- The order `sorted(kwargs.items())` sorts by: lexicographic on the
name, then the value. -/
def itemLe (p q : String × String) : Prop :=
  p.1 < q.1 ∨ (p.1 = q.1 ∧ p.2 ≤ q.2)

instance : DecidableRel itemLe := fun p q => by
  unfold itemLe; infer_instance

/-- `str(args) if args else ""`. -/
def argsStr (args : List String) : String :=
  match args with
  | [] => ""
  | _ => pyStrTuple args

/-- `str(sorted(kwargs.items())) if kwargs else ""`. -/
def kwargsStr (kwargs : List (String × String)) : String :=
  match kwargs with
  | [] => ""
  | _ => pyStrItems (List.insertionSort itemLe kwargs)

/-- The string hashed by `CacheManager._get_cache_key`:
`f"{prefix}:{args_str}:{kwargs_str}"`. -/
def keyData (prefixArg : String) (args : List String)
    (kwargs : List (String × String)) : String :=
  prefixArg ++ ":" ++ argsStr args ++ ":" ++ kwargsStr kwargs

/-- `CacheManager._get_cache_key`: `django_matt:{prefix}:{md5(key_data)}`,
with the MD5 hex digest supplied as an explicit function. -/
def get_cache_key (md5hex : String → String) (prefixArg : String)
    (args : List String) (kwargs : List (String × String)) : String :=
  "django_matt:" ++ prefixArg ++ ":" ++ md5hex (keyData prefixArg args kwargs)

/-- `CacheManager.__init__`: `enabled` and `default_timeout` come from the
settings when present, defaulting to `True` and 300 seconds. -/
structure CacheManager where
  enabled : Bool
  default_timeout : Nat

/-- Build a `CacheManager` from the optional settings values
(`DJANGO_MATT_CACHE_ENABLED`, `DJANGO_MATT_CACHE_TIMEOUT`). -/
def CacheManager.init (settingEnabled : Option Bool)
    (settingTimeout : Option Nat) : CacheManager :=
  ⟨settingEnabled.getD true, settingTimeout.getD 300⟩

/-- Python `timeout or self.default_timeout`: `None` and `0` are falsy. -/
def pyOrNat (x : Option Nat) (y : Nat) : Nat :=
  match x with
  | some n => if n == 0 then y else n
  | none => y

/-- The cache backend's store: keys mapped to a stored value (`none`
models a stored Python `None`) and the timeout it was stored with. -/
abbrev CacheStore (α : Type) : Type := List (String × (Option α × Nat))

/-- `cache.get(key)`: `None` both when the key is absent and when the
stored value is `None`. -/
def cacheGet {α : Type} (c : CacheStore α) (k : String) : Option α :=
  match c.find? (fun e => e.1 == k) with
  | some e => e.2.1
  | none => none

/-- `cache.set(key, value, timeout)`. -/
def cacheSet {α : Type} (c : CacheStore α) (k : String) (v : Option α)
    (t : Nat) : CacheStore α :=
  dictSet c k (v, t)

/-- The observable outcome of one call of a caching wrapper: the value
returned, the cache store afterwards, and how many times the wrapped
function was invoked. -/
structure CallOutcome (α : Type) where
  result : Option α
  cache : CacheStore α
  calls : Nat

/-- The body shared by the sync and async wrappers of
`CacheManager.cache_result` (they differ only in awaiting the wrapped
function): call through when caching is disabled; otherwise derive the
key from `key_prefix or func.__name__` and the call arguments, serve a
cached value that `is not None` without calling the function, and on a
miss call the function once and store its result under the key with
`timeout or self.default_timeout`. -/
def cache_result_call {α : Type} (md5hex : String → String)
    (mgr : CacheManager) (timeout : Option Nat) (keyPrefixArg : Option String)
    (funcName : String) (func : List String → List (String × String) → Option α)
    (args : List String) (kwargs : List (String × String))
    (cache : CacheStore α) : CallOutcome α :=
  if !mgr.enabled then ⟨func args kwargs, cache, 1⟩
  else
    let pfx := pyOrStr keyPrefixArg funcName
    let key := get_cache_key md5hex pfx args kwargs
    match cacheGet cache key with
    | some v => ⟨some v, cache, 0⟩
    | none =>
      let result := func args kwargs
      let t := pyOrNat timeout mgr.default_timeout
      ⟨result, cacheSet cache key result t, 1⟩

/-- The body shared by the sync and async wrappers of
`CacheManager.cache_response`: identical to `cache_result_call`, except
that the wrapped view also receives the request, which is not part of
the cache key. -/
def cache_response_call {ρ α : Type} (md5hex : String → String)
    (mgr : CacheManager) (timeout : Option Nat) (keyPrefixArg : Option String)
    (funcName : String)
    (func : ρ → List String → List (String × String) → Option α)
    (request : ρ) (args : List String) (kwargs : List (String × String))
    (cache : CacheStore α) : CallOutcome α :=
  if !mgr.enabled then ⟨func request args kwargs, cache, 1⟩
  else
    let pfx := pyOrStr keyPrefixArg funcName
    let key := get_cache_key md5hex pfx args kwargs
    match cacheGet cache key with
    | some v => ⟨some v, cache, 0⟩
    | none =>
      let result := func request args kwargs
      let t := pyOrNat timeout mgr.default_timeout
      ⟨result, cacheSet cache key result t, 1⟩

/-! ## Verification helpers and fixtures -/

/-- The round trip of the claim about the model/schema type bridge:
`_get_django_field_for_type` followed by `_get_python_type_for_field`. -/
def roundtripPyType (t : PyType) : PyType :=
  get_python_type_for_field (get_django_field_for_type t).cls

/-- The Python types `_get_python_type_for_field` can produce. -/
def producedPyTypes : List PyType :=
  [.int, .bool, .str, .float, .date, .datetime, .time, .uuid,
   .dictStrAny, .listInt, .any]

/-- A minimal controller with two decorated methods and no other public
attributes: `alpha` (underlying method 1) and `beta` (underlying method
2), both registered without an explicit route name.  `dir` order is
alphabetical, so `beta` is the loop's final public attribute. -/
def exampleController : Controller :=
  { prefixStr := "tasks/"
    attrs :=
      [("alpha", .method 1 (some
          { path := "alpha/", methods := ["GET"], response_model := none
            status_code := 200, name := none, tags := [] })),
       ("beta", .method 2 (some
          { path := "beta/", methods := ["GET"], response_model := none
            status_code := 200, name := none, tags := [] }))] }

/-- A string over the embedded identifier fragment. -/
def IdentStr (s : String) : Prop :=
  s.data.all isIdentChar = true

instance (s : String) : Decidable (IdentStr s) := by
  unfold IdentStr; infer_instance

/-- The characters that can occur in the tuple/list renderings of
identifier-fragment arguments: identifier characters plus the quote and
the punctuation of `str()` on tuples and lists.  The colon is not among
them. -/
def fragChar (c : Char) : Bool :=
  isIdentChar c || c == squote || c == ',' || c == ' ' ||
    c == '(' || c == ')' || c == '[' || c == ']'

/-! ## Shared lemmas -/

/-- Lookup after the replace branch of `dictSet`. -/
theorem find?_dictSet_replace {α : Type} (k : String) (v : α) :
    ∀ l : List (String × α), l.any (fun p => p.1 == k) = true →
      (l.map fun p => if p.1 == k then (k, v) else p).find?
        (fun p => p.1 == k) = some (k, v) := by
  intro l
  induction l with
  | nil => intro h; simp at h
  | cons p t ih =>
    intro h
    simp only [List.any_cons, Bool.or_eq_true] at h
    by_cases hp : (p.1 == k) = true
    · simp only [List.map_cons, hp, if_true]
      exact List.find?_cons_of_pos _ (by simp)
    · have ht := h.resolve_left hp
      simp only [List.map_cons, hp, if_false]
      rw [List.find?_cons_of_neg _ (by simpa using hp)]
      exact ih ht

/-- Lookup after the append branch of `dictSet`. -/
theorem find?_dictSet_append {α : Type} (k : String) (v : α) :
    ∀ l : List (String × α), l.any (fun p => p.1 == k) = false →
      (l ++ [(k, v)]).find? (fun p => p.1 == k) = some (k, v) := by
  intro l
  induction l with
  | nil =>
    intro _
    simp [List.find?_cons_of_pos]
  | cons p t ih =>
    intro h
    simp only [List.any_cons, Bool.or_eq_false_iff] at h
    rw [List.cons_append, List.find?_cons_of_neg _ (by simp [h.1])]
    exact ih h.2

/-- After `kwargs[k] = v`, looking up `k` finds exactly `v`. -/
theorem find?_dictSet {α : Type} (l : List (String × α)) (k : String) (v : α) :
    (dictSet l k v).find? (fun p => p.1 == k) = some (k, v) := by
  unfold dictSet
  by_cases h : l.any (fun p => p.1 == k)
  · simp only [h, if_true]
    exact find?_dictSet_replace k v l h
  · simp only [h, if_false]
    exact find?_dictSet_append k v l (Bool.eq_false_iff.mpr h)

/-! ## C5: the model/schema type bridge round trip -/

/-- C5, counterexample: the claim asserts the round trip for every type
`_get_python_type_for_field` can produce, "including ... list[int] for
many-to-many"; but `list[int]` (produced for `ManyToManyField`) maps to
a plain `JSONField`, which maps back to `dict[str, Any]`, not to
`list[int]`. -/
theorem C5_roundtrip_counterexample :
    DjangoMatt.get_python_type_for_field .ManyToManyField = .listInt
    ∧ DjangoMatt.roundtripPyType .listInt = .dictStrAny
    ∧ DjangoMatt.PyType.dictStrAny ≠ DjangoMatt.PyType.listInt := by
  refine ⟨by decide, by decide, by decide⟩

/-- C5, amended: the round trip `_get_django_field_for_type` then
`_get_python_type_for_field` restores every producible type except three:
`list[int]` comes back as `dict[str, Any]` (lists map to `JSONField`),
`datetime.datetime` comes back as `datetime.date` (`DateTimeField`
subclasses `DateField`, whose `FIELD_TYPE_MAP` entry is reached first),
and `Any` comes back as `str` (the `TextField` fallback). -/
theorem C5_roundtrip_amended :
    (∀ c : DjangoMatt.FieldCls,
      DjangoMatt.get_python_type_for_field c ∈ DjangoMatt.producedPyTypes)
    ∧ (∀ t ∈ DjangoMatt.producedPyTypes,
        t ≠ .listInt → t ≠ .datetime → t ≠ .any →
        DjangoMatt.roundtripPyType t = t)
    ∧ DjangoMatt.roundtripPyType .listInt = .dictStrAny
    ∧ DjangoMatt.roundtripPyType .datetime = .date
    ∧ DjangoMatt.roundtripPyType .any = .str := by
  refine ⟨fun c => by cases c <;> decide, by decide, by decide, by decide, by decide⟩

/-- C5 amended, witness: the round trip restores `bool`. -/
theorem C5_roundtrip_amended_witness :
    DjangoMatt.roundtripPyType .bool = .bool :=
  C5_roundtrip_amended.2.1 .bool (by decide) (by decide) (by decide) (by decide)

/-! ## C6: deterministic exception-to-status mapping -/

/-- C6: `_get_status_code` prefers the exception's own `status_code`
attribute, then maps `ValidationError` to 422, `PermissionError` to 403,
`FileNotFoundError` to 404, `JSONDecodeError`/`KeyError`/`AttributeError`
to 400, `NotImplementedError` to 501, and everything else to 500;
`capture_exception` copies this status, the class name and the message
into the `ErrorDetail`, whose `to_response` carries exactly that status;
and `APIController.handle_exception` answers an `APIError`'s own
`status_code`, 422 for `ValidationError`, 404 for `DoesNotExist`. -/
theorem C6_error_status_mapping :
    (∀ (e : DjangoMatt.Exc) (s : Nat), e.statusAttr = some s →
      DjangoMatt.get_status_code e = s)
    ∧ (∀ e : DjangoMatt.Exc, e.statusAttr = none →
        (e.cls = .validationError → DjangoMatt.get_status_code e = 422)
        ∧ (e.cls = .permissionError → DjangoMatt.get_status_code e = 403)
        ∧ (e.cls = .fileNotFoundError → DjangoMatt.get_status_code e = 404)
        ∧ (e.cls = .jsonDecodeError ∨ e.cls = .keyError ∨ e.cls = .attributeError →
            DjangoMatt.get_status_code e = 400)
        ∧ (e.cls = .notImplementedError → DjangoMatt.get_status_code e = 501)
        ∧ (e.cls = .apiError ∨ e.cls = .otherExc →
            DjangoMatt.get_status_code e = 500))
    ∧ (∀ e : DjangoMatt.Exc,
        (DjangoMatt.capture_exception e).status_code = DjangoMatt.get_status_code e
        ∧ (DjangoMatt.capture_exception e).error_type = e.clsName
        ∧ (DjangoMatt.capture_exception e).message = e.message)
    ∧ (∀ d : DjangoMatt.ErrorDetail, d.to_response.status = d.status_code)
    ∧ (∀ (e : DjangoMatt.Exc) (mp : List String) (s : Nat),
        e.cls = .apiError → e.statusAttr = some s →
        (DjangoMatt.handle_exception e mp).status = s)
    ∧ (∀ (e : DjangoMatt.Exc) (mp : List String), e.cls = .validationError →
        (DjangoMatt.handle_exception e mp).status = 422)
    ∧ (∀ (e : DjangoMatt.Exc) (mp : List String),
        e.cls = .otherExc → e.clsName = "DoesNotExist" →
        (DjangoMatt.handle_exception e mp).status = 404) := by
  refine ⟨?_, ?_, ?_, ?_, ?_, ?_, ?_⟩
  · intro e s h; simp [DjangoMatt.get_status_code, h]
  · intro e h
    refine ⟨?_, ?_, ?_, ?_, ?_, ?_⟩
    · intro hc; simp [DjangoMatt.get_status_code, h, hc]
    · intro hc; simp [DjangoMatt.get_status_code, h, hc]
    · intro hc; simp [DjangoMatt.get_status_code, h, hc]
    · intro hc
      rcases hc with hc | hc | hc <;> simp [DjangoMatt.get_status_code, h, hc]
    · intro hc; simp [DjangoMatt.get_status_code, h, hc]
    · intro hc
      rcases hc with hc | hc <;> simp [DjangoMatt.get_status_code, h, hc]
  · intro e; exact ⟨rfl, rfl, rfl⟩
  · intro d; rfl
  · intro e mp s hc hs
    simp [DjangoMatt.handle_exception, hc, hs, DjangoMatt.JsonResponse]
  · intro e mp hc
    simp [DjangoMatt.handle_exception, hc, DjangoMatt.JsonResponse]
  · intro e mp hc hn
    simp [DjangoMatt.handle_exception, hc, hn, DjangoMatt.JsonResponse]

/-- C6, witness: a pydantic `ValidationError` without a `status_code`
attribute maps to 422 and `handle_exception` answers 422 for it. -/
theorem C6_error_status_mapping_witness :
    DjangoMatt.get_status_code
      ⟨.validationError, "ValidationError", "bad", none, none, .null, []⟩ = 422
    ∧ (DjangoMatt.handle_exception
        ⟨.validationError, "ValidationError", "bad", none, none, .null, []⟩
        []).status = 422 :=
  ⟨(C6_error_status_mapping.2.1
      ⟨.validationError, "ValidationError", "bad", none, none, .null, []⟩ rfl).1 rfl,
   C6_error_status_mapping.2.2.2.2.2.1
      ⟨.validationError, "ValidationError", "bad", none, none, .null, []⟩ [] rfl⟩

/-! ## C8: `include_router` -/

/-- C8: after `include_router(other, prefix)` the route list is the old
list followed by one copy per route of `other`, where each copy's path is
`self.prefix + prefix + path`, its tags are the original tags followed by
`self.tags`, and its endpoint, methods, name, response model and status
code are unchanged.  (`other` itself is only read: the copies are built
from `route.copy()` and `other.routes` is never written.) -/
theorem C8_include_router (r other : APIRouter) (p : String) :
    (r.include_router other p).routes =
      r.routes ++ other.routes.map (includedRouteCopy r.prefixStr r.tags p)
    ∧ List.Forall₂ (fun (c orig : Route) =>
        c.path = r.prefixStr ++ p ++ orig.path
        ∧ c.tags = orig.tags ++ r.tags
        ∧ c.endpoint = orig.endpoint
        ∧ c.methods = orig.methods
        ∧ c.name = orig.name
        ∧ c.response_model = orig.response_model
        ∧ c.status_code = orig.status_code)
        (other.routes.map (includedRouteCopy r.prefixStr r.tags p)) other.routes
    ∧ (r.include_router other p).controllers = r.controllers ++ other.controllers := by
  refine ⟨rfl, ?_, rfl⟩
  rw [List.forall₂_map_left_iff]
  exact List.forall₂_same.mpr fun x _ =>
    ⟨by simp [includedRouteCopy, String.append_assoc], rfl, rfl, rfl, rfl, rfl, rfl⟩

/-! ## C9: async handlers are a pass-through -/

/-- C9: a generated view awaits a coroutine endpoint and calls a plain one
directly, and on any request where the two endpoints return the same
value, the synchronous and asynchronous views produce the same response. -/
theorem C9_async_passthrough
    (f g : Request → List (String × JsonVal) → EndpointResult)
    (rm : Option ResponseModel) (sc : Nat) (req : Request)
    (kw : List (String × JsonVal))
    (h : ∀ kw1, f req kw1 = g req kw1) :
    view_func (.sync f) rm sc req kw = view_func (.coroutine g) rm sc req kw := by
  unfold view_func
  cases hb : viewBodyStep req kw with
  | error resp => rfl
  | ok kw1 => simp [Endpoint.call, h kw1]

/-- C9, witness: a concrete synchronous endpoint and a coroutine endpoint
returning the same value yield the same response. -/
theorem C9_async_passthrough_witness :
    view_func (.sync fun _ _ => .val .null) none 200 ⟨"text/plain", none⟩ [] =
    view_func (.coroutine fun _ _ => .val .null) none 200 ⟨"text/plain", none⟩ [] :=
  C9_async_passthrough (fun _ _ => .val .null) (fun _ _ => .val .null)
    none 200 ⟨"text/plain", none⟩ [] (fun _ => rfl)

/-! ## C3: response normalization and registration defaults -/

/-- C3: once the body guard passes, an endpoint's `HttpResponse` result is
returned unchanged; with a declared `response_model`, a dict result that
fails validation yields the 500 `Response validation error` response and
one that passes is re-wrapped at the route's status code; all other
results — with or without a declared `response_model`, since the
validation branch only fires on dicts — are wrapped in a `JsonResponse`
at the route's status code; and
the registration decorators default that status code to 200 for
GET/PUT/PATCH, 201 for POST and 204 for DELETE. -/
theorem C3_response_normalization :
    (∀ (e : Endpoint) (rm : Option ResponseModel) (sc : Nat) (req : Request)
        (kw kw1 : List (String × JsonVal)) (resp : HttpResponse),
        viewBodyStep req kw = .ok kw1 →
        e.call req kw1 = .http resp →
        view_func e rm sc req kw = resp)
    ∧ (∀ (e : Endpoint) (m : ResponseModel) (sc : Nat) (req : Request)
        (kw kw1 : List (String × JsonVal)) (d : List (String × JsonVal))
        (errs : JsonVal),
        viewBodyStep req kw = .ok kw1 →
        e.call req kw1 = .val (.obj d) →
        m.validate d = .error errs →
        view_func e (some m) sc req kw =
          JsonResponse
            (.obj [("detail", .str "Response validation error"), ("errors", errs)])
            500)
    ∧ (∀ (e : Endpoint) (m : ResponseModel) (sc : Nat) (req : Request)
        (kw kw1 : List (String × JsonVal)) (d dumped : List (String × JsonVal)),
        viewBodyStep req kw = .ok kw1 →
        e.call req kw1 = .val (.obj d) →
        m.validate d = .ok dumped →
        view_func e (some m) sc req kw = JsonResponse (.obj dumped) sc)
    ∧ (∀ (e : Endpoint) (sc : Nat) (req : Request)
        (kw kw1 : List (String × JsonVal)) (v : JsonVal),
        viewBodyStep req kw = .ok kw1 →
        e.call req kw1 = .val v →
        view_func e none sc req kw = JsonResponse v sc)
    ∧ (∀ (e : Endpoint) (m : ResponseModel) (sc : Nat) (req : Request)
        (kw kw1 : List (String × JsonVal)) (v : JsonVal),
        viewBodyStep req kw = .ok kw1 →
        e.call req kw1 = .val v →
        (∀ d, v ≠ .obj d) →
        view_func e (some m) sc req kw = JsonResponse v sc)
    ∧ (∀ (r : APIRouter) (p : String) (rm : Option ResponseModel)
        (nm : Option String) (tg : Option (List String)) (e : Endpoint)
        (en : String),
        ((r.get p rm none nm tg e en).routes.map Route.status_code =
          r.routes.map Route.status_code ++ [200])
        ∧ ((r.post p rm none nm tg e en).routes.map Route.status_code =
            r.routes.map Route.status_code ++ [201])
        ∧ ((r.put p rm none nm tg e en).routes.map Route.status_code =
            r.routes.map Route.status_code ++ [200])
        ∧ ((r.patch p rm none nm tg e en).routes.map Route.status_code =
            r.routes.map Route.status_code ++ [200])
        ∧ ((r.delete p rm none nm tg e en).routes.map Route.status_code =
            r.routes.map Route.status_code ++ [204])) := by
  refine ⟨?_, ?_, ?_, ?_, ?_, ?_⟩
  · intro e rm sc req kw kw1 resp hb hr
    unfold view_func
    rw [hb]
    cases rm with
    | none => simp [viewSerializeStep, hr]
    | some m => simp [viewSerializeStep, hr]
  · intro e m sc req kw kw1 d errs hb hr hv
    unfold view_func
    rw [hb]
    simp [viewSerializeStep, hr, hv]
  · intro e m sc req kw kw1 d dumped hb hr hv
    unfold view_func
    rw [hb]
    simp [viewSerializeStep, hr, hv]
  · intro e sc req kw kw1 v hb hr
    unfold view_func
    rw [hb]
    simp [viewSerializeStep, hr]
  · intro e m sc req kw kw1 v hb hr hnd
    unfold view_func
    rw [hb]
    cases v with
    | obj d => exact absurd rfl (hnd d)
    | null => simp [viewSerializeStep, hr]
    | bool b => simp [viewSerializeStep, hr]
    | num n => simp [viewSerializeStep, hr]
    | str s => simp [viewSerializeStep, hr]
    | arr xs => simp [viewSerializeStep, hr]
  · intro r p rm nm tg e en
    refine ⟨?_, ?_, ?_, ?_, ?_⟩ <;>
      simp [APIRouter.get, APIRouter.post, APIRouter.put, APIRouter.patch,
        APIRouter.delete, APIRouter.add_route]

/-- C3, witness: a concrete endpoint returning a non-dict value through a
view with no response model is wrapped at the declared status code. -/
theorem C3_response_normalization_witness :
    view_func (.sync fun _ _ => .val (.str "ok")) none 201 ⟨"text/plain", none⟩ [] =
      JsonResponse (.str "ok") 201 :=
  C3_response_normalization.2.2.2.1 (.sync fun _ _ => .val (.str "ok")) 201
    ⟨"text/plain", none⟩ [] [] (.str "ok") rfl rfl

/-! ## C2: body parsing and injection -/

/-- C2: on a non-empty `application/json` body that does not parse, every
generated view answers the 400 `Invalid JSON` response (the right-hand
side does not mention the endpoint: it is never invoked), and the
controller wrapper does the same; when the body parses, the router view
binds the parsed object to the `body` keyword argument, and the
controller wrapper validates it against a pydantic-model hint, answering
422 on a `ValidationError` and injecting the validated instance
otherwise. -/
theorem C2_body_parsing :
    (∀ (e : Endpoint) (rm : Option ResponseModel) (sc : Nat) (req : Request)
        (kw : List (String × JsonVal)) (bc : BodyContent),
        req.body = some bc → req.contentType = "application/json" →
        jsonLoads bc = none →
        view_func e rm sc req kw =
          JsonResponse (.obj [("detail", .str "Invalid JSON")]) 400)
    ∧ (∀ (req : Request) (kw : List (String × JsonVal)) (bc : BodyContent)
        (v : JsonVal),
        req.body = some bc → req.contentType = "application/json" →
        jsonLoads bc = some v →
        viewBodyStep req kw = .ok (dictSet kw "body" v)
        ∧ (dictSet kw "body" v).find? (fun p => p.1 == "body") = some ("body", v))
    ∧ (∀ (α : Type) (hints : List (String × Hint))
        (method : List (String × CtrlKw) → α) (req : Request)
        (kw0 : List (String × CtrlKw)) (bc : BodyContent),
        req.body = some bc → req.contentType = "application/json" →
        jsonLoads bc = none →
        runDepWrapper hints method req kw0 =
          .error (JsonResponse (.obj [("detail", .str "Invalid JSON")]) 400))
    ∧ (∀ (bodyData : JsonVal) (p : String)
        (validate : JsonVal → Except JsonVal JsonVal)
        (rest : List (String × Hint)) (kw : List (String × CtrlKw))
        (errs : JsonVal),
        p ≠ "return" → validate bodyData = .error errs →
        injectHints bodyData ((p, .pydantic validate) :: rest) kw =
          .error (JsonResponse
            (.obj [("detail", .str "Validation error"), ("errors", errs)]) 422))
    ∧ (∀ (bodyData : JsonVal) (p : String)
        (validate : JsonVal → Except JsonVal JsonVal)
        (rest : List (String × Hint)) (kw : List (String × CtrlKw))
        (inst : JsonVal),
        p ≠ "return" → validate bodyData = .ok inst →
        injectHints bodyData ((p, .pydantic validate) :: rest) kw =
          injectHints bodyData rest (dictSet kw p (.val inst)))
    ∧ (∀ (α : Type) (hints : List (String × Hint))
        (method : List (String × CtrlKw) → α) (req : Request)
        (kw0 : List (String × CtrlKw)) (bc : BodyContent) (v : JsonVal),
        req.body = some bc → req.contentType = "application/json" →
        jsonLoads bc = some v →
        runDepWrapper hints method req kw0 =
          (match injectHints v hints kw0 with
           | .error resp => .error resp
           | .ok kw => .ok (method kw))) := by
  refine ⟨?_, ?_, ?_, ?_, ?_, ?_⟩
  · intro e rm sc req kw bc hb hct hj
    unfold view_func viewBodyStep
    simp [hb, hct, hj]
  · intro req kw bc v hb hct hj
    refine ⟨?_, find?_dictSet kw "body" v⟩
    unfold viewBodyStep
    simp [hb, hct, hj]
  · intro α hints method req kw0 bc hb hct hj
    unfold runDepWrapper
    simp [hb, hct, hj]
  · intro bodyData p validate rest kw errs hp hv
    unfold injectHints
    simp [hp, hv]
  · intro bodyData p validate rest kw inst hp hv
    simp only [injectHints, hv]
    rw [if_neg (by simp [hp])]
  · intro α hints method req kw0 bc v hb hct hj
    unfold runDepWrapper
    simp [hb, hct, hj]

/-- C2, witness: a request carrying a malformed JSON body is answered 400
by a concrete generated view. -/
theorem C2_body_parsing_witness :
    view_func (.sync fun _ _ => .val .null) none 200
      ⟨"application/json", some .malformed⟩ [] =
      JsonResponse (.obj [("detail", .str "Invalid JSON")]) 400 :=
  C2_body_parsing.1 (.sync fun _ _ => .val .null) none 200
    ⟨"application/json", some .malformed⟩ [] .malformed rfl rfl rfl

/-! ## C4: schema generation from a model -/

/-- The include/exclude test, spelled as the claim does. -/
theorem schemaFieldKept_iff (inc exc : Option (List String)) (n : String) :
    schemaFieldKept inc exc n = true ↔
    (∀ l, inc = some l → n ∈ l) ∧ (∀ l, exc = some l → n ∉ l) := by
  cases inc <;> cases exc <;> simp [schemaFieldKept]

/-- C4: `create_schema_from_model` keeps exactly the model's
`_meta.fields` that pass the include/exclude filter; each kept field's
annotation is its `_get_python_type_for_field` type, wrapped in
`Optional` when the field is nullable, and the field is required exactly
when the model declares no default.  Relationship and unknown field
classes map to `int`, `list[int]` and `Any` respectively. -/
theorem C4_create_schema_from_model :
    (∀ (m : DjangoModelMeta) (inc exc : Option (List String))
        (fname : String) (sf : SchemaField),
        (fname, sf) ∈ create_schema_from_model m inc exc ↔
        ∃ f, f ∈ m.fields ∧ f.name = fname
          ∧ (∀ l, inc = some l → fname ∈ l)
          ∧ (∀ l, exc = some l → fname ∉ l)
          ∧ sf = ⟨(if f.null then .optional (get_python_type_for_field f.cls)
                   else get_python_type_for_field f.cls), !f.hasDefault⟩)
    ∧ get_python_type_for_field .ForeignKey = .int
    ∧ get_python_type_for_field .OneToOneField = .int
    ∧ get_python_type_for_field .ManyToManyField = .listInt
    ∧ get_python_type_for_field .UnknownField = .any := by
  refine ⟨?_, by decide, by decide, by decide, by decide⟩
  intro m inc exc fname sf
  rw [create_schema_from_model, List.mem_filterMap]
  constructor
  · rintro ⟨f, hf, hsome⟩
    by_cases hk : schemaFieldKept inc exc f.name
    · simp only [hk, if_true, Option.some.injEq, Prod.mk.injEq] at hsome
      obtain ⟨hname, hsf⟩ := hsome
      have hkept := (schemaFieldKept_iff inc exc f.name).mp hk
      exact ⟨f, hf, hname, by rw [← hname]; exact hkept.1,
        by rw [← hname]; exact hkept.2, hsf.symm⟩
    · simp [hk] at hsome
  · rintro ⟨f, hf, hname, hinc, hexc, hsf⟩
    subst hname
    refine ⟨f, hf, ?_⟩
    have hk : schemaFieldKept inc exc f.name = true :=
      (schemaFieldKept_iff inc exc f.name).mpr ⟨hinc, hexc⟩
    simp [hk, hsf]

/-- C4, witness: a nullable `CharField` with a default, on a model with no
include/exclude filter, appears as an optional, non-required `str`
field. -/
theorem C4_create_schema_from_model_witness :
    ("title", (⟨.optional .str, false⟩ : SchemaField)) ∈
      create_schema_from_model
        ⟨[⟨"title", .CharField, true, true⟩]⟩ none none :=
  by
  apply (C4_create_schema_from_model.1 ⟨[⟨"title", .CharField, true, true⟩]⟩
    none none "title" ⟨.optional .str, false⟩).mpr
  refine ⟨⟨"title", .CharField, true, true⟩, ?_, rfl, ?_, ?_, ?_⟩
  · simp
  · intro l h; simp at h
  · intro l h; simp at h
  · decide

/-! ## C1: controller URL generation and dispatch -/

/-- C1, evaluation at the failing input: a controller with two decorated
methods `alpha` (method 1) and `beta` (method 2) and no route names
declared.  One URL pattern per decorated method is generated with the
claimed paths, but the pattern names are `None` rather than the method
names (the decorators always store a `name` key, so the
`route_info.get("name", method_name)` fallback never fires), and both
generated views dispatch to method 2 — the wrappers installed by
`Controller.__init__` close over the loop variable `method`, so after
the loops every wrapper calls the final public attribute, here `beta`'s
wrapper and through it `beta` itself.  The claim's dispatch property
fails: `alpha`'s view does not invoke method 1. -/
theorem C1_controller_dispatch_eval :
    (controller_get_urls "api/" exampleController).map CtrlUrlPattern.path =
      ["api/tasks/alpha/", "api/tasks/beta/"]
    ∧ (controller_get_urls "api/" exampleController).map CtrlUrlPattern.target =
      [.method 2, .method 2]
    ∧ (controller_get_urls "api/" exampleController).map CtrlUrlPattern.urlName =
      [none, none]
    ∧ Invoked.method 2 ≠ Invoked.method 1 :=
  ⟨rfl, rfl, rfl, by decide⟩

/-! ## C7: the caching wrappers -/

/-- C7, counterexample: the claim says a miss stores the result "with the
given timeout"; but a given timeout of 0 is falsy, so
`timeout or self.default_timeout` stores with the default 300 instead. -/
theorem C7_timeout_zero_counterexample :
    (cache_result_call (fun s => s) (CacheManager.init none none) (some 0)
        none "f" (fun _ _ => some (1 : Nat)) [] [] []).cache =
      [("django_matt:f:f::", (some 1, 300))]
    ∧ (300 : Nat) ≠ 0 := by
  refine ⟨by decide, by decide⟩

/-- C7, amended: with caching disabled both wrappers call through without
touching the cache; with caching enabled a cached non-`None` value under
the derived key is returned without invoking the function; on a miss the
function is invoked exactly once and its result stored under the key with
the given timeout when that is non-zero, and with the default
(`DJANGO_MATT_CACHE_TIMEOUT`, itself defaulting to 300 seconds) when the
timeout is omitted or 0; a `None` result is stored but never served, so
the next identical call invokes the function again. -/
theorem C7_cache_wrappers_amended :
    (∀ (α : Type) (md5hex : String → String) (mgr : CacheManager)
        (timeout : Option Nat) (kp : Option String) (fn : String)
        (func : List String → List (String × String) → Option α)
        (args : List String) (kwargs : List (String × String))
        (cache : CacheStore α),
        mgr.enabled = false →
        cache_result_call md5hex mgr timeout kp fn func args kwargs cache =
          ⟨func args kwargs, cache, 1⟩)
    ∧ (∀ (α : Type) (md5hex : String → String) (mgr : CacheManager)
        (timeout : Option Nat) (kp : Option String) (fn : String)
        (func : List String → List (String × String) → Option α)
        (args : List String) (kwargs : List (String × String))
        (cache : CacheStore α) (v : α),
        mgr.enabled = true →
        cacheGet cache (get_cache_key md5hex (pyOrStr kp fn) args kwargs) = some v →
        cache_result_call md5hex mgr timeout kp fn func args kwargs cache =
          ⟨some v, cache, 0⟩)
    ∧ (∀ (α : Type) (md5hex : String → String) (mgr : CacheManager)
        (timeout : Option Nat) (kp : Option String) (fn : String)
        (func : List String → List (String × String) → Option α)
        (args : List String) (kwargs : List (String × String))
        (cache : CacheStore α),
        mgr.enabled = true →
        cacheGet cache (get_cache_key md5hex (pyOrStr kp fn) args kwargs) = none →
        cache_result_call md5hex mgr timeout kp fn func args kwargs cache =
          ⟨func args kwargs,
           cacheSet cache (get_cache_key md5hex (pyOrStr kp fn) args kwargs)
             (func args kwargs) (pyOrNat timeout mgr.default_timeout), 1⟩)
    ∧ (∀ d, pyOrNat none d = d)
    ∧ (∀ t d, t ≠ 0 → pyOrNat (some t) d = t)
    ∧ (∀ d, pyOrNat (some 0) d = d)
    ∧ (CacheManager.init none none).default_timeout = 300
    ∧ (∀ b t, (CacheManager.init b (some t)).default_timeout = t)
    ∧ (∀ (α : Type) (md5hex : String → String) (mgr : CacheManager)
        (timeout : Option Nat) (kp : Option String) (fn : String)
        (func : List String → List (String × String) → Option α)
        (args : List String) (kwargs : List (String × String))
        (cache : CacheStore α),
        mgr.enabled = true →
        cacheGet cache (get_cache_key md5hex (pyOrStr kp fn) args kwargs) = none →
        func args kwargs = none →
        (cache_result_call md5hex mgr timeout kp fn func args kwargs cache).calls = 1
        ∧ (cache_result_call md5hex mgr timeout kp fn func args kwargs cache).cache.find?
            (fun e => e.1 == get_cache_key md5hex (pyOrStr kp fn) args kwargs) =
            some (get_cache_key md5hex (pyOrStr kp fn) args kwargs,
              (none, pyOrNat timeout mgr.default_timeout))
        ∧ (cache_result_call md5hex mgr timeout kp fn func args kwargs
            (cache_result_call md5hex mgr timeout kp fn func args kwargs cache).cache).calls = 1)
    ∧ (∀ (ρ α : Type) (md5hex : String → String) (mgr : CacheManager)
        (timeout : Option Nat) (kp : Option String) (fn : String)
        (func : ρ → List String → List (String × String) → Option α)
        (request : ρ) (args : List String) (kwargs : List (String × String))
        (cache : CacheStore α),
        (mgr.enabled = false →
          cache_response_call md5hex mgr timeout kp fn func request args kwargs cache =
            ⟨func request args kwargs, cache, 1⟩)
        ∧ (∀ v, mgr.enabled = true →
            cacheGet cache (get_cache_key md5hex (pyOrStr kp fn) args kwargs) = some v →
            cache_response_call md5hex mgr timeout kp fn func request args kwargs cache =
              ⟨some v, cache, 0⟩)
        ∧ (mgr.enabled = true →
            cacheGet cache (get_cache_key md5hex (pyOrStr kp fn) args kwargs) = none →
            cache_response_call md5hex mgr timeout kp fn func request args kwargs cache =
              ⟨func request args kwargs,
               cacheSet cache (get_cache_key md5hex (pyOrStr kp fn) args kwargs)
                 (func request args kwargs) (pyOrNat timeout mgr.default_timeout), 1⟩)) := by
  refine ⟨?_, ?_, ?_, fun d => rfl, ?_, fun d => rfl, rfl, fun b t => rfl, ?_, ?_⟩
  · intro α md5hex mgr timeout kp fn func args kwargs cache h
    simp [cache_result_call, h]
  · intro α md5hex mgr timeout kp fn func args kwargs cache v h hget
    simp [cache_result_call, h, hget]
  · intro α md5hex mgr timeout kp fn func args kwargs cache h hget
    simp [cache_result_call, h, hget]
  · intro t d ht
    simp [pyOrNat, ht]
  · intro α md5hex mgr timeout kp fn func args kwargs cache h hget hnone
    have hout : cache_result_call md5hex mgr timeout kp fn func args kwargs cache =
        ⟨none,
         cacheSet cache (get_cache_key md5hex (pyOrStr kp fn) args kwargs)
           none (pyOrNat timeout mgr.default_timeout), 1⟩ := by
      simp [cache_result_call, h, hget, hnone]
    refine ⟨by rw [hout], ?_, ?_⟩
    · rw [hout]
      exact find?_dictSet cache _ _
    · rw [hout]
      have hget2 : cacheGet
          (cacheSet cache (get_cache_key md5hex (pyOrStr kp fn) args kwargs)
            none (pyOrNat timeout mgr.default_timeout))
          (get_cache_key md5hex (pyOrStr kp fn) args kwargs) = none := by
        unfold cacheGet cacheSet
        rw [find?_dictSet]
      simp [cache_result_call, h, hget2]
  · intro ρ α md5hex mgr timeout kp fn func request args kwargs cache
    refine ⟨?_, ?_, ?_⟩
    · intro h; simp [cache_response_call, h]
    · intro v h hget; simp [cache_response_call, h, hget]
    · intro h hget; simp [cache_response_call, h, hget]

/-- C7, witness: with the defaults, a concrete cached value is served
without invoking the function. -/
theorem C7_cache_wrappers_amended_witness :
    cache_result_call (fun s => s) (CacheManager.init none none) none none "g"
      (fun _ _ => some (5 : Nat)) [] [] [("django_matt:g:g::", (some 7, 300))] =
      ⟨some 7, [("django_matt:g:g::", (some 7, 300))], 0⟩ :=
  C7_cache_wrappers_amended.2.1 Nat (fun s => s) (CacheManager.init none none)
    none none "g" (fun _ _ => some 5) [] [] [("django_matt:g:g::", (some 7, 300))]
    7 rfl (by decide)

/-! ## C10: cache-key derivation

The development below shows that `keyData`, the string fed to MD5 by
`_get_cache_key`, is invariant under reordering of the keyword arguments
and, over the identifier fragment, injective in the prefix, the
positional arguments and the sorted keyword items: the colon separators
can always be recovered because neither the tuple rendering nor the list
rendering of identifier-fragment arguments contains a colon. -/

/-- A character failing a `List.all` test is not a member. -/
theorem not_mem_of_all_eq_true {p : Char → Bool} {c : Char}
    (hc : p c = false) :
    ∀ {l : List Char}, l.all p = true → c ∉ l := by
  intro l h hm
  have := List.all_eq_true.mp h c hm
  rw [hc] at this
  exact Bool.noConfusion this

/-- Splitting a list at a character that occurs in neither left part is
unambiguous. -/
theorem split_first {c : Char} :
    ∀ (l₁ l₂ r₁ r₂ : List Char), c ∉ l₁ → c ∉ l₂ →
      l₁ ++ c :: r₁ = l₂ ++ c :: r₂ → l₁ = l₂ ∧ r₁ = r₂ := by
  intro l₁
  induction l₁ with
  | nil =>
    intro l₂ r₁ r₂ _ h₂ he
    cases l₂ with
    | nil => exact ⟨rfl, by injection he⟩
    | cons b t =>
      exfalso
      injection he with hb _
      exact h₂ (hb ▸ List.mem_cons_self b t)
  | cons a s ih =>
    intro l₂ r₁ r₂ h₁ h₂ he
    cases l₂ with
    | nil =>
      exfalso
      injection he with hb _
      exact h₁ (hb ▸ List.mem_cons_self a s)
    | cons b t =>
      injection he with hb ht
      have h₁' : c ∉ s := fun hm => h₁ (List.mem_cons_of_mem a hm)
      have h₂' : c ∉ t := fun hm => h₂ (List.mem_cons_of_mem b hm)
      obtain ⟨hl, hr⟩ := ih t r₁ r₂ h₁' h₂' ht
      exact ⟨by rw [hb, hl], hr⟩

/-- Splitting a list at a character that occurs in neither right part is
unambiguous. -/
theorem split_last {c : Char} (l₁ l₂ r₁ r₂ : List Char)
    (h₁ : c ∉ r₁) (h₂ : c ∉ r₂)
    (he : l₁ ++ c :: r₁ = l₂ ++ c :: r₂) : l₁ = l₂ ∧ r₁ = r₂ := by
  have hrev : r₁.reverse ++ c :: l₁.reverse = r₂.reverse ++ c :: l₂.reverse := by
    have := congrArg List.reverse he
    simpa [List.reverse_append] using this
  have h₁' : c ∉ r₁.reverse := by simpa using h₁
  have h₂' : c ∉ r₂.reverse := by simpa using h₂
  obtain ⟨hr, hl⟩ := split_first r₁.reverse r₂.reverse l₁.reverse l₂.reverse h₁' h₂' hrev
  exact ⟨List.reverse_injective hl, List.reverse_injective hr⟩

/-- The rendered form of an identifier-fragment string. -/
theorem data_pyReprStr (s : String) :
    (pyReprStr s).data = squote :: (s.data ++ [squote]) := by
  simp [pyReprStr, String.data_append, Char.toString, String.singleton,
    String.data_push]

/-- The rendered form of one keyword item. -/
theorem data_pyReprPair (p : String × String) :
    (pyReprPair p).data =
      '(' :: ((pyReprStr p.1).data ++ ',' :: ' ' ::
        ((pyReprStr p.2).data ++ [')'])) := by
  simp [pyReprPair, String.data_append]

/-- `pyReprStr` is a prefix code on the identifier fragment. -/
theorem pyReprStr_prefix {a b : String} {t₁ t₂ : List Char}
    (ha : IdentStr a) (hb : IdentStr b)
    (he : (pyReprStr a).data ++ t₁ = (pyReprStr b).data ++ t₂) :
    a = b ∧ t₁ = t₂ := by
  rw [data_pyReprStr, data_pyReprStr] at he
  simp only [List.cons_append, List.append_assoc, List.singleton_append] at he
  injection he with _ he
  have hqa : squote ∉ a.data :=
    not_mem_of_all_eq_true (by decide) ha
  have hqb : squote ∉ b.data :=
    not_mem_of_all_eq_true (by decide) hb
  obtain ⟨hd, ht⟩ := split_first a.data b.data t₁ t₂ hqa hqb he
  exact ⟨String.ext hd, ht⟩

/-- `pyReprPair` is a prefix code on identifier-fragment items. -/
theorem pyReprPair_prefix {p q : String × String} {t₁ t₂ : List Char}
    (hp1 : IdentStr p.1) (hp2 : IdentStr p.2)
    (hq1 : IdentStr q.1) (hq2 : IdentStr q.2)
    (he : (pyReprPair p).data ++ t₁ = (pyReprPair q).data ++ t₂) :
    p = q ∧ t₁ = t₂ := by
  rw [data_pyReprPair, data_pyReprPair] at he
  simp only [List.cons_append, List.append_assoc, List.singleton_append] at he
  injection he with _ he
  obtain ⟨h1, he⟩ := pyReprStr_prefix hp1 hq1 he
  injection he with _ he
  injection he with _ he
  obtain ⟨h2, he⟩ := pyReprStr_prefix hp2 hq2 he
  injection he with _ he
  exact ⟨Prod.ext h1 h2, he⟩

/-- The rendered separator. -/
theorem data_comma_space : (", " : String).data = [',', ' '] := rfl

/-- `commaSep` on the empty and singleton lists. -/
theorem data_commaSep_nil : (commaSep []).data = ([] : List Char) := rfl

theorem data_commaSep_one (x : String) : (commaSep [x]).data = x.data := rfl

/-- `commaSep` on a two-or-more-element list. -/
theorem data_commaSep_cons₂ (x y : String) (t : List String) :
    (commaSep (x :: y :: t)).data =
      x.data ++ ',' :: ' ' :: (commaSep (y :: t)).data := by
  simp [commaSep, String.data_append, data_comma_space]

/-- Joining prefix-code tokens with `", "` is injective. -/
theorem commaSep_tok_inj {α : Type} (tok : α → String) (P : α → Prop)
    (hpc : ∀ (a b : α) (t₁ t₂ : List Char), P a → P b →
      (tok a).data ++ t₁ = (tok b).data ++ t₂ → a = b ∧ t₁ = t₂)
    (hne : ∀ a, P a → (tok a).data ≠ []) :
    ∀ l₁ l₂ : List α, (∀ x ∈ l₁, P x) → (∀ x ∈ l₂, P x) →
      (commaSep (l₁.map tok)).data = (commaSep (l₂.map tok)).data → l₁ = l₂ := by
  intro l₁
  induction l₁ with
  | nil =>
    intro l₂ _ hP₂ he
    cases l₂ with
    | nil => rfl
    | cons y ys =>
      exfalso
      have hy := hP₂ y (List.mem_cons_self y ys)
      cases ys with
      | nil =>
        rw [List.map_nil, List.map_cons, List.map_nil, data_commaSep_nil,
          data_commaSep_one] at he
        exact hne y hy he.symm
      | cons z zs =>
        rw [List.map_nil, List.map_cons, List.map_cons, data_commaSep_nil,
          data_commaSep_cons₂] at he
        obtain ⟨-, habs⟩ := List.append_eq_nil.mp he.symm
        exact List.noConfusion habs
  | cons x xs ih =>
    intro l₂ hP₁ hP₂ he
    have hx := hP₁ x (List.mem_cons_self x xs)
    cases l₂ with
    | nil =>
      exfalso
      cases xs with
      | nil =>
        rw [List.map_nil, List.map_cons, List.map_nil, data_commaSep_nil,
          data_commaSep_one] at he
        exact hne x hx he
      | cons w ws =>
        rw [List.map_nil, List.map_cons, List.map_cons, data_commaSep_nil,
          data_commaSep_cons₂] at he
        obtain ⟨-, habs⟩ := List.append_eq_nil.mp he
        exact List.noConfusion habs
    | cons y ys =>
      have hy := hP₂ y (List.mem_cons_self y ys)
      cases xs with
      | nil =>
        cases ys with
        | nil =>
          rw [List.map_cons, List.map_nil, List.map_cons, List.map_nil,
            data_commaSep_one, data_commaSep_one] at he
          have hxy := (hpc x y [] [] hx hy (by simp [he])).1
          rw [hxy]
        | cons z zs =>
          exfalso
          rw [List.map_cons, List.map_nil, List.map_cons, List.map_cons,
            data_commaSep_one, data_commaSep_cons₂] at he
          have he' : (tok x).data ++ [] = (tok y).data ++
              ',' :: ' ' :: (commaSep (tok z :: zs.map tok)).data := by
            rw [List.append_nil]; exact he
          obtain ⟨-, habs⟩ := hpc x y _ _ hx hy he'
          exact List.noConfusion habs
      | cons w ws =>
        cases ys with
        | nil =>
          exfalso
          rw [List.map_cons, List.map_cons, List.map_cons, List.map_nil,
            data_commaSep_cons₂, data_commaSep_one] at he
          have he' : (tok y).data ++ [] = (tok x).data ++
              ',' :: ' ' :: (commaSep (tok w :: ws.map tok)).data := by
            rw [List.append_nil]; exact he.symm
          obtain ⟨-, habs⟩ := hpc y x _ _ hy hx he'
          exact List.noConfusion habs
        | cons z zs =>
          rw [List.map_cons, List.map_cons, List.map_cons, List.map_cons,
            data_commaSep_cons₂, data_commaSep_cons₂] at he
          obtain ⟨hxy, ht⟩ := hpc x y _ _ hx hy he
          injection ht with _ ht
          injection ht with _ ht
          have hrest : w :: ws = z :: zs := by
            apply ih (z :: zs)
              (fun a ha => hP₁ a (List.mem_cons_of_mem x ha))
              (fun a ha => hP₂ a (List.mem_cons_of_mem y ha))
            rw [List.map_cons, List.map_cons]
            exact ht
          rw [hxy, hrest]

/-- Identifier characters are fragment characters. -/
theorem fragChar_of_ident {c : Char} (h : isIdentChar c = true) :
    fragChar c = true := by
  simp [fragChar, h]

/-- An identifier string consists of fragment characters. -/
theorem all_fragChar_of_ident {l : List Char} (h : l.all isIdentChar = true) :
    l.all fragChar = true :=
  List.all_eq_true.mpr fun c hc => fragChar_of_ident (List.all_eq_true.mp h c hc)

theorem all_fragChar_pyReprStr {s : String} (h : IdentStr s) :
    (pyReprStr s).data.all fragChar = true := by
  rw [data_pyReprStr]
  simp [List.all_cons, List.all_append, all_fragChar_of_ident h,
    (by decide : fragChar squote = true)]

theorem all_fragChar_pyReprPair {p : String × String}
    (h1 : IdentStr p.1) (h2 : IdentStr p.2) :
    (pyReprPair p).data.all fragChar = true := by
  rw [data_pyReprPair]
  simp [List.all_cons, List.all_append, all_fragChar_pyReprStr h1,
    all_fragChar_pyReprStr h2, (by decide : fragChar '(' = true),
    (by decide : fragChar ')' = true), (by decide : fragChar ',' = true),
    (by decide : fragChar ' ' = true)]

theorem all_fragChar_commaSep {α : Type} (tok : α → String) (P : α → Prop)
    (htok : ∀ a, P a → (tok a).data.all fragChar = true) :
    ∀ l : List α, (∀ x ∈ l, P x) →
      (commaSep (l.map tok)).data.all fragChar = true := by
  intro l
  induction l with
  | nil =>
    intro _
    rw [List.map_nil, data_commaSep_nil]
    rfl
  | cons x xs ih =>
    intro hP
    have hx := htok x (hP x (List.mem_cons_self x xs))
    cases xs with
    | nil =>
      rw [List.map_cons, List.map_nil, data_commaSep_one]
      exact hx
    | cons y t =>
      have ht := ih (fun a ha => hP a (List.mem_cons_of_mem x ha))
      rw [List.map_cons] at ht
      rw [List.map_cons, List.map_cons, data_commaSep_cons₂]
      simp only [List.all_append, List.all_cons, Bool.and_eq_true]
      exact ⟨hx, by decide, by decide, ht⟩

/-- Rendered-form lemmas for the outer tuple/list delimiters. -/
theorem data_pyStrTuple_one (x : String) :
    (pyStrTuple [x]).data = '(' :: ((pyReprStr x).data ++ [',', ')']) := by
  simp [pyStrTuple, String.data_append]

theorem data_pyStrTuple_cons₂ (x y : String) (t : List String) :
    (pyStrTuple (x :: y :: t)).data =
      '(' :: ((commaSep ((x :: y :: t).map pyReprStr)).data ++ [')']) := by
  simp [pyStrTuple, String.data_append]

theorem data_pyStrItems (l : List (String × String)) :
    (pyStrItems l).data =
      '[' :: ((commaSep (l.map pyReprPair)).data ++ [']']) := by
  simp [pyStrItems, String.data_append]

theorem all_fragChar_pyStrTuple {a : List String}
    (h : ∀ x ∈ a, IdentStr x) : (pyStrTuple a).data.all fragChar = true := by
  cases a with
  | nil => decide
  | cons x xs =>
    cases xs with
    | nil =>
      rw [data_pyStrTuple_one]
      simp [List.all_cons, List.all_append,
        all_fragChar_pyReprStr (h x (List.mem_cons_self x [])),
        (by decide : fragChar '(' = true), (by decide : fragChar ')' = true),
        (by decide : fragChar ',' = true)]
    | cons y t =>
      rw [data_pyStrTuple_cons₂]
      have hcs := all_fragChar_commaSep pyReprStr IdentStr
        (fun s hs => all_fragChar_pyReprStr hs) (x :: y :: t) h
      simp only [List.all_cons, List.all_append, Bool.and_eq_true]
      exact ⟨by decide, hcs, by decide⟩

theorem all_fragChar_argsStr {a : List String}
    (h : ∀ x ∈ a, IdentStr x) : (argsStr a).data.all fragChar = true := by
  cases a with
  | nil => decide
  | cons x xs => exact all_fragChar_pyStrTuple h

theorem all_fragChar_kwargsStr {k : List (String × String)}
    (h : ∀ q ∈ k, IdentStr q.1 ∧ IdentStr q.2) :
    (kwargsStr k).data.all fragChar = true := by
  cases k with
  | nil => decide
  | cons q t =>
    show (pyStrItems (List.insertionSort itemLe (q :: t))).data.all fragChar = true
    rw [data_pyStrItems]
    have hall : ∀ x ∈ List.insertionSort itemLe (q :: t),
        IdentStr x.1 ∧ IdentStr x.2 := fun x hx =>
      h x ((List.perm_insertionSort itemLe (q :: t)).mem_iff.mp hx)
    have hcs := all_fragChar_commaSep pyReprPair
      (fun r => IdentStr r.1 ∧ IdentStr r.2)
      (fun r hr => all_fragChar_pyReprPair hr.1 hr.2) _ hall
    simp only [List.all_cons, List.all_append, Bool.and_eq_true]
    exact ⟨by decide, hcs, by decide⟩

/-- Colons never occur in the rendered argument sections. -/
theorem colon_not_mem_argsStr {a : List String} (h : ∀ x ∈ a, IdentStr x) :
    ':' ∉ (argsStr a).data :=
  not_mem_of_all_eq_true (p := fragChar) (by decide) (all_fragChar_argsStr h)

theorem colon_not_mem_kwargsStr {k : List (String × String)}
    (h : ∀ q ∈ k, IdentStr q.1 ∧ IdentStr q.2) :
    ':' ∉ (kwargsStr k).data :=
  not_mem_of_all_eq_true (p := fragChar) (by decide) (all_fragChar_kwargsStr h)

/-- `pyReprStr` tokens are never empty. -/
theorem pyReprStr_ne_nil (s : String) : (pyReprStr s).data ≠ [] := by
  rw [data_pyReprStr]
  exact List.cons_ne_nil _ _

/-- `pyReprPair` tokens are never empty. -/
theorem pyReprPair_ne_nil (p : String × String) : (pyReprPair p).data ≠ [] := by
  rw [data_pyReprPair]
  exact List.cons_ne_nil _ _

/-- `str()` on non-empty tuples of identifier-fragment strings is
injective. -/
theorem pyStrTuple_inj {a₁ a₂ : List String}
    (h₁ : ∀ x ∈ a₁, IdentStr x) (h₂ : ∀ x ∈ a₂, IdentStr x)
    (hne₁ : a₁ ≠ []) (hne₂ : a₂ ≠ [])
    (he : pyStrTuple a₁ = pyStrTuple a₂) : a₁ = a₂ := by
  have he' := congrArg String.data he
  cases a₁ with
  | nil => exact absurd rfl hne₁
  | cons x xs =>
    cases a₂ with
    | nil => exact absurd rfl hne₂
    | cons y ys =>
      have hx := h₁ x (List.mem_cons_self x xs)
      have hy := h₂ y (List.mem_cons_self y ys)
      cases xs with
      | nil =>
        cases ys with
        | nil =>
          rw [data_pyStrTuple_one, data_pyStrTuple_one] at he'
          injection he' with _ he'
          have := pyReprStr_prefix hx hy he'
          rw [this.1]
        | cons z zs =>
          exfalso
          rw [data_pyStrTuple_one, data_pyStrTuple_cons₂] at he'
          injection he' with _ he'
          rw [List.map_cons, List.map_cons, data_commaSep_cons₂] at he'
          rw [show ((pyReprStr y).data ++
              ',' :: ' ' :: (commaSep (pyReprStr z :: zs.map pyReprStr)).data)
              ++ [')'] = (pyReprStr y).data ++ ',' :: ' ' ::
              ((commaSep (pyReprStr z :: zs.map pyReprStr)).data ++ [')'])
            from by simp] at he'
          obtain ⟨-, habs⟩ := pyReprStr_prefix hx hy he'
          injection habs with _ habs
          injection habs with habs _
          exact absurd habs (by decide)
      | cons w ws =>
        cases ys with
        | nil =>
          exfalso
          rw [data_pyStrTuple_cons₂, data_pyStrTuple_one] at he'
          injection he' with _ he'
          rw [List.map_cons, List.map_cons, data_commaSep_cons₂] at he'
          rw [show ((pyReprStr x).data ++
              ',' :: ' ' :: (commaSep (pyReprStr w :: ws.map pyReprStr)).data)
              ++ [')'] = (pyReprStr x).data ++ ',' :: ' ' ::
              ((commaSep (pyReprStr w :: ws.map pyReprStr)).data ++ [')'])
            from by simp] at he'
          obtain ⟨-, habs⟩ := pyReprStr_prefix hy hx he'.symm
          injection habs with _ habs
          injection habs with habs _
          exact absurd habs (by decide)
        | cons z zs =>
          rw [data_pyStrTuple_cons₂, data_pyStrTuple_cons₂] at he'
          injection he' with _ he'
          have hcs := List.append_cancel_right he'
          exact commaSep_tok_inj pyReprStr IdentStr
            (fun a b t₁ t₂ ha hb hab => pyReprStr_prefix ha hb hab)
            (fun a _ => pyReprStr_ne_nil a)
            (x :: w :: ws) (y :: z :: zs) h₁ h₂ hcs

/-- `str(sorted(kwargs.items()))` is injective in the item list. -/
theorem pyStrItems_inj {l₁ l₂ : List (String × String)}
    (h₁ : ∀ q ∈ l₁, IdentStr q.1 ∧ IdentStr q.2)
    (h₂ : ∀ q ∈ l₂, IdentStr q.1 ∧ IdentStr q.2)
    (he : pyStrItems l₁ = pyStrItems l₂) : l₁ = l₂ := by
  have he' := congrArg String.data he
  rw [data_pyStrItems, data_pyStrItems] at he'
  injection he' with _ he'
  have hcs := List.append_cancel_right he'
  exact commaSep_tok_inj pyReprPair (fun q => IdentStr q.1 ∧ IdentStr q.2)
    (fun a b t₁ t₂ ha hb hab => pyReprPair_prefix ha.1 ha.2 hb.1 hb.2 hab)
    (fun a _ => pyReprPair_ne_nil a)
    l₁ l₂ h₁ h₂ hcs

/-- `args_str` is injective on identifier-fragment argument lists. -/
theorem argsStr_inj {a₁ a₂ : List String}
    (h₁ : ∀ x ∈ a₁, IdentStr x) (h₂ : ∀ x ∈ a₂, IdentStr x)
    (he : argsStr a₁ = argsStr a₂) : a₁ = a₂ := by
  cases a₁ with
  | nil =>
    cases a₂ with
    | nil => rfl
    | cons y ys =>
      exfalso
      have he' := congrArg String.data he
      rw [show argsStr [] = "" from rfl,
        show argsStr (y :: ys) = pyStrTuple (y :: ys) from rfl] at he'
      cases ys with
      | nil => rw [data_pyStrTuple_one] at he'; exact List.noConfusion he'
      | cons z zs => rw [data_pyStrTuple_cons₂] at he'; exact List.noConfusion he'
  | cons x xs =>
    cases a₂ with
    | nil =>
      exfalso
      have he' := congrArg String.data he
      rw [show argsStr [] = "" from rfl,
        show argsStr (x :: xs) = pyStrTuple (x :: xs) from rfl] at he'
      cases xs with
      | nil => rw [data_pyStrTuple_one] at he'; exact List.noConfusion he'.symm
      | cons z zs =>
        rw [data_pyStrTuple_cons₂] at he'
        exact List.noConfusion he'.symm
    | cons y ys =>
      exact pyStrTuple_inj h₁ h₂ (List.cons_ne_nil x xs) (List.cons_ne_nil y ys) he

/-- `kwargs_str` determines the sorted keyword items. -/
theorem kwargsStr_inj_sorted {k₁ k₂ : List (String × String)}
    (h₁ : ∀ q ∈ k₁, IdentStr q.1 ∧ IdentStr q.2)
    (h₂ : ∀ q ∈ k₂, IdentStr q.1 ∧ IdentStr q.2)
    (he : kwargsStr k₁ = kwargsStr k₂) :
    List.insertionSort itemLe k₁ = List.insertionSort itemLe k₂ := by
  cases k₁ with
  | nil =>
    cases k₂ with
    | nil => rfl
    | cons q t =>
      exfalso
      have he' := congrArg String.data he
      rw [show kwargsStr [] = "" from rfl,
        show kwargsStr (q :: t) =
          pyStrItems (List.insertionSort itemLe (q :: t)) from rfl,
        data_pyStrItems] at he'
      exact List.noConfusion he'
  | cons p s =>
    cases k₂ with
    | nil =>
      exfalso
      have he' := congrArg String.data he
      rw [show kwargsStr [] = "" from rfl,
        show kwargsStr (p :: s) =
          pyStrItems (List.insertionSort itemLe (p :: s)) from rfl,
        data_pyStrItems] at he'
      exact List.noConfusion he'.symm
    | cons q t =>
      have he'' : pyStrItems (List.insertionSort itemLe (p :: s)) =
          pyStrItems (List.insertionSort itemLe (q :: t)) := he
      exact pyStrItems_inj
        (fun r hr => h₁ r ((List.perm_insertionSort itemLe (p :: s)).mem_iff.mp hr))
        (fun r hr => h₂ r ((List.perm_insertionSort itemLe (q :: t)).mem_iff.mp hr))
        he''

/-- The rendered form of `key_data`. -/
theorem data_keyData (p : String) (a : List String)
    (k : List (String × String)) :
    (keyData p a k).data =
      (p.data ++ ':' :: (argsStr a).data) ++ ':' :: (kwargsStr k).data := by
  simp [keyData, String.data_append]

instance : IsTrans (String × String) itemLe :=
  ⟨by
    rintro a b c (h₁ | ⟨h₁, h₁'⟩) (h₂ | ⟨h₂, h₂'⟩)
    · exact Or.inl (lt_trans h₁ h₂)
    · exact Or.inl (lt_of_lt_of_eq h₁ h₂)
    · exact Or.inl (lt_of_eq_of_lt h₁ h₂)
    · exact Or.inr ⟨h₁.trans h₂, le_trans h₁' h₂'⟩⟩

instance : IsTotal (String × String) itemLe :=
  ⟨by
    intro a b
    rcases lt_trichotomy a.1 b.1 with h | h | h
    · exact Or.inl (Or.inl h)
    · rcases le_total a.2 b.2 with h' | h'
      · exact Or.inl (Or.inr ⟨h, h'⟩)
      · exact Or.inr (Or.inr ⟨h.symm, h'⟩)
    · exact Or.inr (Or.inl h)⟩

instance : IsAntisymm (String × String) itemLe :=
  ⟨by
    rintro a b (h₁ | ⟨h₁, h₁'⟩) (h₂ | ⟨h₂, h₂'⟩)
    · exact absurd h₂ (lt_asymm h₁)
    · exact absurd (lt_of_lt_of_eq h₁ h₂) (lt_irrefl _)
    · exact absurd (lt_of_lt_of_eq h₂ h₁) (lt_irrefl _)
    · exact Prod.ext h₁ (le_antisymm h₁' h₂')⟩

/-- Permuted keyword items sort identically. -/
theorem insertionSort_eq_of_perm {k₁ k₂ : List (String × String)}
    (h : k₁.Perm k₂) :
    List.insertionSort itemLe k₁ = List.insertionSort itemLe k₂ :=
  List.eq_of_perm_of_sorted
    ((List.perm_insertionSort itemLe k₁).trans
      (h.trans (List.perm_insertionSort itemLe k₂).symm))
    (List.sorted_insertionSort itemLe k₁)
    (List.sorted_insertionSort itemLe k₂)

/-- `kwargs_str` is invariant under reordering of the keyword items. -/
theorem kwargsStr_perm {k₁ k₂ : List (String × String)} (h : k₁.Perm k₂) :
    kwargsStr k₁ = kwargsStr k₂ := by
  cases k₁ with
  | nil =>
    have : k₂ = [] := h.symm.eq_nil
    rw [this]
  | cons q t =>
    cases k₂ with
    | nil => exact absurd h.eq_nil (List.cons_ne_nil q t)
    | cons p s =>
      show pyStrItems (List.insertionSort itemLe (q :: t)) =
        pyStrItems (List.insertionSort itemLe (p :: s))
      rw [insertionSort_eq_of_perm h]

/-- The hashed input determines prefix, positional arguments, and the
keyword items up to order. -/
theorem keyData_inj {p₁ p₂ : String} {a₁ a₂ : List String}
    {k₁ k₂ : List (String × String)}
    (ha₁ : ∀ x ∈ a₁, IdentStr x) (ha₂ : ∀ x ∈ a₂, IdentStr x)
    (hk₁ : ∀ q ∈ k₁, IdentStr q.1 ∧ IdentStr q.2)
    (hk₂ : ∀ q ∈ k₂, IdentStr q.1 ∧ IdentStr q.2)
    (he : keyData p₁ a₁ k₁ = keyData p₂ a₂ k₂) :
    p₁ = p₂ ∧ a₁ = a₂ ∧ k₁.Perm k₂ := by
  have he' := congrArg String.data he
  rw [data_keyData, data_keyData] at he'
  obtain ⟨he₁, hK⟩ := split_last _ _ _ _
    (colon_not_mem_kwargsStr hk₁) (colon_not_mem_kwargsStr hk₂) he'
  obtain ⟨hp, hA⟩ := split_last _ _ _ _
    (colon_not_mem_argsStr ha₁) (colon_not_mem_argsStr ha₂) he₁
  have hsort := kwargsStr_inj_sorted hk₁ hk₂ (String.ext hK)
  refine ⟨String.ext hp, argsStr_inj ha₁ ha₂ (String.ext hA), ?_⟩
  exact ((List.perm_insertionSort itemLe k₁).symm.trans
    (hsort ▸ List.perm_insertionSort itemLe k₂ :
      (List.insertionSort itemLe k₁).Perm k₂))

/-- C10: `_get_cache_key` returns
`django_matt:{prefix}:{md5(key_data)}`; the hashed `key_data` is
deterministic and invariant under keyword-argument reordering; and, over
the identifier fragment, calls differing in prefix, positional arguments
or keyword-item set produce different hashed inputs. -/
theorem C10_cache_key_derivation (md5hex : String → String) :
    (∀ (p : String) (a : List String) (k : List (String × String)),
      get_cache_key md5hex p a k =
        "django_matt:" ++ p ++ ":" ++ md5hex (keyData p a k))
    ∧ (∀ (p : String) (a : List String) (k₁ k₂ : List (String × String)),
        k₁.Perm k₂ →
        keyData p a k₁ = keyData p a k₂
        ∧ get_cache_key md5hex p a k₁ = get_cache_key md5hex p a k₂)
    ∧ (∀ (p₁ p₂ : String) (a₁ a₂ : List String)
        (k₁ k₂ : List (String × String)),
        (∀ x ∈ a₁, IdentStr x) → (∀ x ∈ a₂, IdentStr x) →
        (∀ q ∈ k₁, IdentStr q.1 ∧ IdentStr q.2) →
        (∀ q ∈ k₂, IdentStr q.1 ∧ IdentStr q.2) →
        keyData p₁ a₁ k₁ = keyData p₂ a₂ k₂ →
        p₁ = p₂ ∧ a₁ = a₂ ∧ k₁.Perm k₂) := by
  refine ⟨fun p a k => rfl, ?_, ?_⟩
  · intro p a k₁ k₂ h
    have hk : keyData p a k₁ = keyData p a k₂ := by
      unfold keyData
      rw [kwargsStr_perm h]
    exact ⟨hk, by unfold get_cache_key; rw [hk]⟩
  · intro p₁ p₂ a₁ a₂ k₁ k₂ ha₁ ha₂ hk₁ hk₂ he
    exact keyData_inj ha₁ ha₂ hk₁ hk₂ he

/-- C10, witness: two concrete calls with reordered keyword arguments
produce the identical key, including under a concrete digest function. -/
theorem C10_cache_key_derivation_witness :
    get_cache_key (fun s => s) "f" ["x"] [("b", "1"), ("a", "2")] =
    get_cache_key (fun s => s) "f" ["x"] [("a", "2"), ("b", "1")] :=
  ((C10_cache_key_derivation (fun s => s)).2.1 "f" ["x"]
    [("b", "1"), ("a", "2")] [("a", "2"), ("b", "1")] (by decide)).2

end DjangoMatt
